import Mathlib

/-!
MinimumDistanceUpperBoundConstraint: bound validation and construction.

A shallow embedding of
`multibody/inverse_kinematics/minimum_distance_upper_bound_constraint.cc`.

* `Double` is IEEE-754 binary64, given by its three bit fields, with the
  operations the file uses (`std::isfinite`, `<=`, `+`, `-`), `+` being
  correctly rounded to nearest, ties to even.
* `CheckBounds`, the two `Initialize` overloads, the three constructors and
  the `DoEval` overloads follow the source statement by statement.  A
  constructor run records the calls it makes, in order, next to its result.
* The aggregation primitive `solvers::MinimumValueUpperBoundConstraint` is a
  collaborator that is not part of the file; it is taken as a parameter
  (`MinimumValueApi`).
-/

set_option exponentiation.threshold 4096
set_option maxRecDepth 100000

namespace drake

/-! ## IEEE-754 binary64 -/

/-- A binary64 value as its sign bit, its 11-bit biased exponent field and its
52-bit fraction field.  Every inhabitant is a bit pattern of a `double` and
every bit pattern is an inhabitant. -/
structure Double where
  sign : Bool
  expo : Nat
  frac : Nat
  expo_lt : expo < 2048
  frac_lt : frac < 2 ^ 52
  deriving DecidableEq

namespace Double

/-- Positive or negative zero. -/
def zero (s : Bool) : Double := ⟨s, 0, 0, by decide, by decide⟩

/-- Positive or negative infinity: exponent field all ones, fraction zero. -/
def inf (s : Bool) : Double := ⟨s, 2047, 0, by decide, by decide⟩

/-- The default quiet NaN: exponent field all ones, top fraction bit set. -/
def nan : Double := ⟨false, 2047, 2 ^ 51, by decide, by decide⟩

/-- Test `std::isnan`. -/
def isnan (d : Double) : Bool := d.expo == 2047 && d.frac != 0

/-- Test `std::isinf`. -/
def isinf (d : Double) : Bool := d.expo == 2047 && d.frac == 0

/-- Test `std::isfinite`: neither infinite nor NaN. -/
def isfinite (d : Double) : Bool := decide (d.expo < 2047)

/-- Magnitude in units of `2^-1074` (the smallest subnormal).  Subnormals
(`expo = 0`) are `frac`; normal numbers are `(2^52 + frac) * 2^(expo - 1)`.
The same formula gives `2^2098` for an infinity, above every finite
magnitude, which is what the ordering needs.  It is not meaningful for NaN. -/
def mag (d : Double) : Nat :=
  if d.expo = 0 then d.frac else (2 ^ 52 + d.frac) * 2 ^ (d.expo - 1)

/-- Signed value in units of `2^-1074`; both zeros give `0`. -/
def toInt (d : Double) : Int := if d.sign then -(d.mag : Int) else (d.mag : Int)

/-- The `<=` of C++ on doubles: false as soon as one side is NaN. -/
def le (a b : Double) : Bool := !a.isnan && !b.isnan && decide (a.toInt ≤ b.toInt)

/-- The `<` of C++ on doubles: false as soon as one side is NaN. -/
def lt (a b : Double) : Bool := !a.isnan && !b.isnan && decide (a.toInt < b.toInt)

/-- The `==` of C++ on doubles: false as soon as one side is NaN, and the two
zeros are equal. -/
def eq (a b : Double) : Bool := !a.isnan && !b.isnan && decide (a.toInt = b.toInt)

/-- Unary minus: flips the sign bit. -/
def neg (a : Double) : Double := { a with sign := !a.sign }

/-- Number of low bits of `n` that do not fit in a 53-bit significand: the
number of halvings that bring `n` below `2^53`.  The first argument bounds the
number of steps; `excessBits n n` always runs to the end. -/
def excessBits : Nat → Nat → Nat
  | 0, _ => 0
  | fuel + 1, n => if n < 2 ^ 53 then 0 else excessBits fuel (n / 2) + 1

/-- Round a magnitude (an exact multiple of `2^-1074`) to 53 significant bits,
to nearest, ties to even, with unbounded exponent.  `k` is the number of low
bits that do not fit; `q` the kept bits, `r` the dropped ones. -/
def roundMag (n : Nat) : Nat :=
  let k := excessBits n n
  let q := n / 2 ^ k
  let r := n % 2 ^ k
  if 2 * r < 2 ^ k then q * 2 ^ k
  else if 2 * r = 2 ^ k ∧ q % 2 = 0 then q * 2 ^ k
  else (q + 1) * 2 ^ k

/-- Encode a rounded magnitude: subnormal below `2^52`, infinity from
`2^2098` on (overflow), otherwise normal with the leading bit dropped. -/
def ofMag (s : Bool) (m : Nat) : Double :=
  if h : m < 2 ^ 52 then ⟨s, 0, m, by decide, h⟩
  else
    let k := excessBits m m
    if h2 : k + 1 < 2047 then
      ⟨s, k + 1, (m / 2 ^ k) % 2 ^ 52, by omega, Nat.mod_lt _ (by decide)⟩
    else inf s

/-- The `+` of C++ on doubles (round to nearest, ties to even).  A NaN operand
or `inf + -inf` gives NaN; an infinity absorbs a finite operand; two finite
operands are added exactly and rounded; an exact zero sum is `-0` only when
both operands are negative. -/
def add (a b : Double) : Double :=
  if a.isnan || b.isnan then nan
  else if a.isinf then (if b.isinf && (a.sign != b.sign) then nan else a)
  else if b.isinf then b
  else
    let s : Int := a.toInt + b.toInt
    if s = 0 then zero (a.sign && b.sign)
    else ofMag (decide (s < 0)) (roundMag s.natAbs)

/-- The binary `-` of C++ on doubles. -/
def sub (a b : Double) : Double := add a (neg b)

/-- The literal `1.0`. -/
def one : Double := ⟨false, 1023, 0, by decide, by decide⟩

/-- The literal `0.1` (bits `0x3FB999999999999A`). -/
def c0_1 : Double := ⟨false, 1019, 2702159776422298, by decide, by decide⟩

/-- The literal `0.05` (bits `0x3FA999999999999A`). -/
def c0_05 : Double := ⟨false, 1018, 2702159776422298, by decide, by decide⟩

/-- The literal `0.15` (bits `0x3FC3333333333333`). -/
def c0_15 : Double := ⟨false, 1020, 900719925474099, by decide, by decide⟩

/-- The double `0.15000000000000002` (bits `0x3FC3333333333334`), one unit in
the last place above `0.15`. -/
def c0_15_up : Double := ⟨false, 1020, 900719925474100, by decide, by decide⟩

/-- The smallest positive double, `2^-1074` (`5e-324`). -/
def minSubnormal : Double := ⟨false, 0, 1, by decide, by decide⟩

end Double

/-! ## Errors and recorded runs -/

/-- The exceptions the constructors can raise, told apart by their message. -/
inductive Error where
  /-- Raised by `RefFromPtrOrThrow` / `PtrOrThrow`: the pointer is `nullptr`. -/
  | nullArgument
  /-- Raised by `CheckPlantIsConnectedToSceneGraph`. -/
  | plantNotConnected
  /-- Raised by `CheckBounds`: "influence_distance must be finite." -/
  | influenceDistanceNotFinite
  /-- Raised by `CheckBounds`: "influence_distance=..., must be larger than
  minimum_distance_upper=...; equivalently, influence_distance_offset=..., but
  it needs to be positive."  Carries the three formatted numbers. -/
  | influenceDistanceNotLarger (influence_distance minimum_distance_upper
      difference : Double)
  deriving DecidableEq

/-- The error classes of the specification. -/
inductive ErrorKind where
  | invalidConfiguration
  | nullArgument
  | preconditionViolation
  deriving DecidableEq

/-- The class of each exception. -/
def Error.kind : Error → ErrorKind
  | .nullArgument => .nullArgument
  | .plantNotConnected => .preconditionViolation
  | .influenceDistanceNotFinite => .invalidConfiguration
  | .influenceDistanceNotLarger _ _ _ => .invalidConfiguration

/-- The calls a constructor makes, as recorded in a run. -/
inductive Call where
  | refFromPtrOrThrow
  | ptrOrThrow
  | baseConstraint
  | checkPlantIsConnectedToSceneGraph
  | checkBounds (minimum_distance_upper influence_distance : Double)
  | getCollisionCandidates
  | maxContextNumDistances
  | makeMinimumValueConstraint
  | setBounds
  | setPenaltyFunction
  deriving DecidableEq

/-- A run of a piece of constructor code: the calls made, in order, and the
value returned or the exception thrown. -/
structure Run (α : Type) where
  calls : List Call
  result : Except Error α

/-- One recorded call with its outcome. -/
def Run.call {α : Type} (c : Call) (r : Except Error α) : Run α := ⟨[c], r⟩

/-- Sequencing: the rest runs only when the first part did not throw. -/
def Run.andThen {α β : Type} (r : Run α) (f : α → Run β) : Run β :=
  match r.result with
  | .error e => ⟨r.calls, .error e⟩
  | .ok a => ⟨r.calls ++ (f a).calls, (f a).result⟩

/-- Whether a recorded call is a call of `CheckBounds`. -/
def Call.isCheckBounds : Call → Bool
  | .checkBounds _ _ => true
  | _ => false

/-! ## Collaborators -/

/-- The template parameter `T`: `double` or `AutoDiffXd`. -/
inductive Scalar where
  | double
  | autodiff
  deriving DecidableEq

/-- A value with its derivatives (`AutoDiffXd`). -/
structure AutoDiffXd where
  value : Double
  derivatives : List Double
  deriving DecidableEq

/-- The vector type `VectorX<T>`. -/
def VectorX : Scalar → Type
  | .double => List Double
  | .autodiff => List AutoDiffXd

/-- A pointer: `none` is `nullptr`. -/
abbrev Ptr (α : Type) := Option α

/-- What the file reads of a `MultibodyPlant<T>`. -/
structure MultibodyPlant (T : Scalar) where
  num_positions : Nat
  deriving DecidableEq

/-- What the file reads of a `systems::Context<T>` of a plant: whether the
geometry query input port is connected, and the number of collision candidates
its query object reports. -/
structure Context (T : Scalar) where
  geometry_connected : Bool
  num_collision_candidates : Nat
  deriving DecidableEq

/-- A `planning::CollisionCheckerContext`. -/
structure CollisionCheckerContext where
  id : Nat
  deriving DecidableEq

/-- What the file reads of a `planning::CollisionChecker`. -/
structure CollisionChecker where
  plant : MultibodyPlant Scalar.double
  MaxContextNumDistances : CollisionCheckerContext → Nat

/-- A `solvers::MinimumValuePenaltyFunction` that is not empty: from `x` to
the penalty and its derivative. -/
abbrev PenaltyFn := Double → Double × Double

/-- The distance closures handed to the aggregation primitive, by what they
capture.  Their body is a call of `internal::Distances` on the captured
objects. -/
inductive DistanceFn where
  /-- Written `[&plant, plant_context]`: `internal::Distances<T, S>`. -/
  | ofPlant (T S : Scalar) (plant : MultibodyPlant T) (plant_context : Context T)
  /-- Written `[this]`: reads `collision_checker_` and
  `collision_checker_context_` of the constraint. -/
  | ofCollisionChecker (S : Scalar) (collision_checker_ : Ptr CollisionChecker)
      (collision_checker_context_ : Ptr CollisionCheckerContext)

/-- The interface of `solvers::MinimumValueUpperBoundConstraint`, the
aggregation primitive, whose code is not part of the file: `P` is its state,
`W` the state of the evaluation contexts that `Eval` works on. -/
structure MinimumValueApi (P W : Type) where
  make : (num_vars : Nat) → (minimum_value_upper influence_value_offset : Double) →
    (max_num_values : Nat) → (value_function value_function_double : DistanceFn) → P
  lower_bound : P → List Double
  upper_bound : P → List Double
  set_penalty_function : P → PenaltyFn → P
  Eval : (T : Scalar) → P → W → VectorX T → VectorX T × W

/-- Modelled from the spec: `RefFromPtrOrThrow` and `PtrOrThrow` are declared
in `kinematic_evaluator_utilities.h`, which is not among the sources; by the
spec a null plant or collision-checker pointer fails with a null-argument
error, and otherwise the pointee is used. -/
def RefFromPtrOrThrow {α : Type} (ptr : Ptr α) : Except Error α :=
  match ptr with
  | none => .error .nullArgument
  | some a => .ok a

/-- Modelled from the spec: `CheckPlantIsConnectedToSceneGraph` is declared in
`distance_constraint_utilities.h`, which is not among the sources; by the spec
a plant that is not connected to geometry fails with a precondition error. -/
def CheckPlantIsConnectedToSceneGraph {T : Scalar} (_plant : MultibodyPlant T)
    (plant_context : Context T) : Except Error Unit :=
  if plant_context.geometry_connected then .ok () else .error .plantNotConnected

/-! ## The constraint -/

/-- The object state: the `solvers::Constraint` base (sizes and bounds) and
the members of `MinimumDistanceUpperBoundConstraint`. -/
structure MinimumDistanceUpperBoundConstraint (P : Type) where
  num_constraints : Nat
  num_vars : Nat
  lower_bound : List Double
  upper_bound : List Double
  plant_double_ : Ptr (MultibodyPlant Scalar.double)
  plant_context_double_ : Ptr (Context Scalar.double)
  plant_autodiff_ : Ptr (MultibodyPlant Scalar.autodiff)
  plant_context_autodiff_ : Ptr (Context Scalar.autodiff)
  collision_checker_ : Ptr CollisionChecker
  collision_checker_context_ : Ptr CollisionCheckerContext
  minimum_value_constraint_ : Ptr P

/-- The method `CheckBounds` (lines 141-156). -/
def CheckBounds (minimum_distance_upper influence_distance : Double) : Except Error Unit :=
  if !influence_distance.isfinite then
    .error .influenceDistanceNotFinite
  else if influence_distance.le minimum_distance_upper then
    .error (.influenceDistanceNotLarger influence_distance minimum_distance_upper
      (influence_distance.sub minimum_distance_upper))
  else
    .ok ()

/-- The base-class part of the initializer lists: `solvers::Constraint(1,
num_vars, Vector1d(0), Vector1d(0))` with every member of the derived class
still null. -/
def baseConstraint (P : Type) (num_vars : Nat) : MinimumDistanceUpperBoundConstraint P :=
  { num_constraints := 1
    num_vars := num_vars
    lower_bound := [Double.zero false]
    upper_bound := [Double.zero false]
    plant_double_ := none
    plant_context_double_ := none
    plant_autodiff_ := none
    plant_context_autodiff_ := none
    collision_checker_ := none
    collision_checker_context_ := none
    minimum_value_constraint_ := none }

/-- The tail that both `Initialize` overloads spell out (lines 30-48 and
58-79): `minimum_value_constraint_ = make_unique<...>(...)`, then
`set_bounds` with the bounds of that primitive, then `set_penalty_function`
when the penalty function is not empty. -/
def buildPrimitive {P W : Type} (api : MinimumValueApi P W)
    (self : MinimumDistanceUpperBoundConstraint P) (num_vars : Nat)
    (minimum_distance_upper influence_distance_offset : Double) (max_num_values : Nat)
    (value_function value_function_double : DistanceFn)
    (penalty_function : Option PenaltyFn) : Run (MinimumDistanceUpperBoundConstraint P) :=
  (Run.call .makeMinimumValueConstraint
    (.ok (api.make num_vars minimum_distance_upper influence_distance_offset max_num_values
      value_function value_function_double))).andThen fun mvc =>
  (Run.call .setBounds
    (.ok { self with
      minimum_value_constraint_ := some mvc
      lower_bound := api.lower_bound mvc
      upper_bound := api.upper_bound mvc })).andThen fun self1 =>
  match penalty_function with
  | some f =>
    Run.call .setPenaltyFunction
      (.ok { self1 with minimum_value_constraint_ := some (api.set_penalty_function mvc f) })
  | none => ⟨[], .ok self1⟩

/-- The template `Initialize<T>` for a plant (lines 14-49). -/
def InitializePlant {P W : Type} (api : MinimumValueApi P W) {T : Scalar}
    (self : MinimumDistanceUpperBoundConstraint P)
    (plant : MultibodyPlant T) (plant_context : Context T)
    (minimum_distance_upper influence_distance_offset : Double)
    (penalty_function : Option PenaltyFn) : Run (MinimumDistanceUpperBoundConstraint P) :=
  (Run.call .checkPlantIsConnectedToSceneGraph
    (CheckPlantIsConnectedToSceneGraph plant plant_context)).andThen fun _ =>
  (Run.call
    (.checkBounds minimum_distance_upper
      (minimum_distance_upper.add influence_distance_offset))
    (CheckBounds minimum_distance_upper
      (minimum_distance_upper.add influence_distance_offset))).andThen fun _ =>
  (Run.call .getCollisionCandidates
    (.ok plant_context.num_collision_candidates)).andThen fun num_collision_candidates =>
  buildPrimitive api self self.num_vars minimum_distance_upper influence_distance_offset
    num_collision_candidates
    (.ofPlant T .autodiff plant plant_context) (.ofPlant T .double plant plant_context)
    penalty_function

/-- The overload of `Initialize` for a collision checker (lines 51-80). -/
def InitializeCollisionChecker {P W : Type} (api : MinimumValueApi P W)
    (self : MinimumDistanceUpperBoundConstraint P)
    (collision_checker : CollisionChecker)
    (collision_checker_context : CollisionCheckerContext)
    (minimum_distance_upper influence_distance_offset : Double)
    (penalty_function : Option PenaltyFn) : Run (MinimumDistanceUpperBoundConstraint P) :=
  (Run.call
    (.checkBounds minimum_distance_upper
      (minimum_distance_upper.add influence_distance_offset))
    (CheckBounds minimum_distance_upper
      (minimum_distance_upper.add influence_distance_offset))).andThen fun _ =>
  (Run.call .maxContextNumDistances
    (.ok (collision_checker.MaxContextNumDistances collision_checker_context))).andThen
  fun max_num_distances =>
  buildPrimitive api self collision_checker.plant.num_positions minimum_distance_upper
    influence_distance_offset max_num_distances
    (.ofCollisionChecker .autodiff self.collision_checker_ self.collision_checker_context_)
    (.ofCollisionChecker .double self.collision_checker_ self.collision_checker_context_)
    penalty_function

/-- The constructor from a `MultibodyPlant<double>` (lines 82-98): the base
class is built from `RefFromPtrOrThrow(plant).num_positions()`, the members
are set, and the body calls `Initialize`.  `Initialize` dereferences the
context pointer unconditionally, so the context is taken as a valid object.
`collision_checker_context_` is not named in the initializer list and stays
null. -/
def ctorPlantDouble {P W : Type} (api : MinimumValueApi P W)
    (plant : Ptr (MultibodyPlant Scalar.double)) (minimum_distance_upper : Double)
    (plant_context : Context Scalar.double) (penalty_function : Option PenaltyFn)
    (influence_distance_offset : Double) : Run (MinimumDistanceUpperBoundConstraint P) :=
  (Run.call .refFromPtrOrThrow (RefFromPtrOrThrow plant)).andThen fun plant_ref =>
  (Run.call .baseConstraint (.ok (baseConstraint P plant_ref.num_positions))).andThen fun base =>
  InitializePlant api
    { base with
      plant_double_ := plant
      plant_context_double_ := some plant_context
      plant_autodiff_ := none
      plant_context_autodiff_ := none
      collision_checker_ := none }
    plant_ref plant_context minimum_distance_upper influence_distance_offset penalty_function

/-- The constructor from a `MultibodyPlant<AutoDiffXd>` (lines 100-114). -/
def ctorPlantAutodiff {P W : Type} (api : MinimumValueApi P W)
    (plant : Ptr (MultibodyPlant Scalar.autodiff)) (minimum_distance_lower : Double)
    (plant_context : Context Scalar.autodiff) (penalty_function : Option PenaltyFn)
    (influence_distance_offset : Double) : Run (MinimumDistanceUpperBoundConstraint P) :=
  (Run.call .refFromPtrOrThrow (RefFromPtrOrThrow plant)).andThen fun plant_ref =>
  (Run.call .baseConstraint (.ok (baseConstraint P plant_ref.num_positions))).andThen fun base =>
  InitializePlant api
    { base with
      plant_double_ := none
      plant_context_double_ := none
      plant_autodiff_ := plant
      plant_context_autodiff_ := some plant_context
      collision_checker_ := none }
    plant_ref plant_context minimum_distance_lower influence_distance_offset penalty_function

/-- The constructor from a `planning::CollisionChecker` (lines 116-139).
`PtrOrThrow` is the null check with a message of its own; `Initialize`
dereferences the context pointer unconditionally, so the context is taken as a
valid object. -/
def ctorCollisionChecker {P W : Type} (api : MinimumValueApi P W)
    (collision_checker : Ptr CollisionChecker) (minimum_distance_upper : Double)
    (collision_checker_context : CollisionCheckerContext)
    (penalty_function : Option PenaltyFn)
    (influence_distance_offset : Double) : Run (MinimumDistanceUpperBoundConstraint P) :=
  (Run.call .ptrOrThrow (RefFromPtrOrThrow collision_checker)).andThen fun checker =>
  (Run.call .baseConstraint (.ok (baseConstraint P checker.plant.num_positions))).andThen
  fun base =>
  InitializeCollisionChecker api
    { base with
      plant_double_ := none
      plant_context_double_ := none
      plant_autodiff_ := none
      plant_context_autodiff_ := none
      collision_checker_ := collision_checker
      collision_checker_context_ := some collision_checker_context }
    checker collision_checker_context minimum_distance_upper influence_distance_offset
    penalty_function

/-- The template `DoEvalGeneric<T>` (lines 158-162): one call of `Eval` on the
owned primitive.  The method is `const`: the object comes back as it went in.
`none` stands for the dereference of a null `minimum_value_constraint_`. -/
def DoEvalGeneric {P W : Type} (api : MinimumValueApi P W) (T : Scalar)
    (self : MinimumDistanceUpperBoundConstraint P) (w : W) (x : VectorX T) :
    MinimumDistanceUpperBoundConstraint P × Option (VectorX T × W) :=
  (self, self.minimum_value_constraint_.map fun mvc => api.Eval T mvc w x)

/-- The overload of `DoEval` on `Eigen::VectorXd` (lines 164-167). -/
def DoEvalDouble {P W : Type} (api : MinimumValueApi P W)
    (self : MinimumDistanceUpperBoundConstraint P) (w : W) (x : VectorX .double) :
    MinimumDistanceUpperBoundConstraint P × Option (VectorX .double × W) :=
  DoEvalGeneric api .double self w x

/-- The overload of `DoEval` on `AutoDiffVecXd` (lines 169-172). -/
def DoEvalAutoDiff {P W : Type} (api : MinimumValueApi P W)
    (self : MinimumDistanceUpperBoundConstraint P) (w : W) (x : VectorX .autodiff) :
    MinimumDistanceUpperBoundConstraint P × Option (VectorX .autodiff × W) :=
  DoEvalGeneric api .autodiff self w x

/-- The argument lists of the three constructor overloads, without the
arguments they share (bound, penalty function, offset). -/
inductive CtorArgs where
  | plantDouble (plant : Ptr (MultibodyPlant Scalar.double))
      (plant_context : Context Scalar.double)
  | plantAutodiff (plant : Ptr (MultibodyPlant Scalar.autodiff))
      (plant_context : Context Scalar.autodiff)
  | collisionChecker (collision_checker : Ptr CollisionChecker)
      (collision_checker_context : CollisionCheckerContext)

/-- Overload resolution: the constructor that a call with these arguments
runs. -/
def construct {P W : Type} (api : MinimumValueApi P W) (args : CtorArgs)
    (minimum_distance_upper : Double) (penalty_function : Option PenaltyFn)
    (influence_distance_offset : Double) : Run (MinimumDistanceUpperBoundConstraint P) :=
  match args with
  | .plantDouble plant plant_context =>
    ctorPlantDouble api plant minimum_distance_upper plant_context penalty_function
      influence_distance_offset
  | .plantAutodiff plant plant_context =>
    ctorPlantAutodiff api plant minimum_distance_upper plant_context penalty_function
      influence_distance_offset
  | .collisionChecker collision_checker collision_checker_context =>
    ctorCollisionChecker api collision_checker minimum_distance_upper
      collision_checker_context penalty_function influence_distance_offset

/-- The exception a run ended with, if any. -/
def Run.thrown {α : Type} (r : Run α) : Option Error :=
  match r.result with
  | .error e => some e
  | .ok _ => none

/-! ## A stand-in primitive for concrete runs -/

/-- State of the stand-in primitive: what it was built from. -/
structure SamplePrimitive where
  num_vars : Nat
  max_num_values : Nat
  has_penalty : Bool
  deriving DecidableEq

/-- A stand-in for the aggregation primitive, used only to run the
constructors on concrete arguments: bounds `[1, +inf]`, `Eval` returns its
input. -/
def sampleApi : MinimumValueApi SamplePrimitive Unit where
  make := fun num_vars _ _ max_num_values _ _ => ⟨num_vars, max_num_values, false⟩
  lower_bound := fun _ => [Double.one]
  upper_bound := fun _ => [Double.inf false]
  set_penalty_function := fun p _ => { p with has_penalty := true }
  Eval := fun _ _ w x => (x, w)

/-- A plant with seven positions. -/
def samplePlant (T : Scalar) : MultibodyPlant T := ⟨7⟩

/-- A plant context connected to geometry, with three collision candidates. -/
def connectedContext (T : Scalar) : Context T := ⟨true, 3⟩

/-- A plant context that is not connected to geometry. -/
def unconnectedContext (T : Scalar) : Context T := ⟨false, 0⟩

/-- A collision checker over the seven-position plant with a budget of five
distances for every context. -/
def sampleChecker : CollisionChecker := ⟨⟨7⟩, fun _ => 5⟩

end drake

namespace drake
namespace Double

/-! ## Facts about the binary64 model -/

theorem excessBits_spec (fuel : Nat) : ∀ n : Nat, n ≤ fuel →
    (n < 2 ^ 53 → excessBits fuel n = 0) ∧
    (2 ^ 53 ≤ n → 0 < excessBits fuel n ∧ 2 ^ (52 + excessBits fuel n) ≤ n ∧
      n < 2 ^ (53 + excessBits fuel n)) := by
  induction fuel with
  | zero =>
    intro n hn
    refine ⟨fun _ => rfl, fun h => ?_⟩
    omega
  | succ fuel ih =>
    intro n hn
    by_cases hlt : n < 2 ^ 53
    · refine ⟨fun _ => by rw [excessBits, if_pos hlt], fun h => ?_⟩
      omega
    · refine ⟨fun h => absurd h hlt, fun _ => ?_⟩
      have hstep : excessBits (fuel + 1) n = excessBits fuel (n / 2) + 1 := by
        rw [excessBits, if_neg hlt]
      obtain ⟨h0, h1⟩ := ih (n / 2) (by omega)
      rw [hstep]
      by_cases hhalf : n / 2 < 2 ^ 53
      · rw [h0 hhalf]
        refine ⟨by omega, ?_, ?_⟩
        · show 2 ^ 53 ≤ n
          omega
        · show n < 2 ^ 54
          omega
      · obtain ⟨_, hlo, hhi⟩ := h1 (by omega)
        refine ⟨by omega, ?_, ?_⟩
        · have e : 2 ^ (52 + (excessBits fuel (n / 2) + 1)) =
              2 * 2 ^ (52 + excessBits fuel (n / 2)) := by
            rw [← Nat.add_assoc, Nat.pow_succ, Nat.mul_comm]
          rw [e]
          omega
        · have e : 2 ^ (53 + (excessBits fuel (n / 2) + 1)) =
              2 * 2 ^ (53 + excessBits fuel (n / 2)) := by
            rw [← Nat.add_assoc, Nat.pow_succ, Nat.mul_comm]
          rw [e]
          omega

end Double
end drake

namespace drake
namespace Double

theorem excessBits_small {n : Nat} (h : n < 2 ^ 53) : excessBits n n = 0 :=
  (excessBits_spec n n (Nat.le_refl n)).1 h

theorem excessBits_large {n : Nat} (h : 2 ^ 53 ≤ n) :
    0 < excessBits n n ∧ 2 ^ (52 + excessBits n n) ≤ n ∧ n < 2 ^ (53 + excessBits n n) :=
  (excessBits_spec n n (Nat.le_refl n)).2 h

/-- With dropped bits present, the magnitude has at least 54 bits. -/
theorem large_of_excessBits_pos {n : Nat} (h : 0 < excessBits n n) : 2 ^ 53 ≤ n := by
  by_contra hlt
  have := excessBits_small (Nat.lt_of_not_le hlt)
  omega

/-- The rounded magnitude is the truncation, or the truncation plus one unit
of the kept precision, the latter only when some dropped bit is set. -/
theorem roundMag_cases (n : Nat) :
    roundMag n = n / 2 ^ excessBits n n * 2 ^ excessBits n n ∨
    (roundMag n = (n / 2 ^ excessBits n n + 1) * 2 ^ excessBits n n ∧
      n % 2 ^ excessBits n n ≠ 0) := by
  unfold roundMag
  simp only []
  split_ifs with h1 h2
  · exact Or.inl rfl
  · exact Or.inl rfl
  · refine Or.inr ⟨rfl, fun h0 => h1 ?_⟩
    rw [h0]
    exact Nat.two_pow_pos _

theorem two_pow_exp_lt {a b : Nat} (h : 2 ^ a < 2 ^ b) : a < b :=
  (Nat.pow_lt_pow_iff_right (by decide : 1 < 2)).1 h

theorem two_pow_mono {a b : Nat} (h : a ≤ b) : 2 ^ a ≤ 2 ^ b :=
  Nat.pow_le_pow_right (by decide) h

theorem two_pow_split {k j : Nat} (h : k ≤ j) : 2 ^ j = 2 ^ (j - k) * 2 ^ k := by
  rw [← Nat.pow_add, Nat.sub_add_cancel h]

/-- Rounding never crosses a value with a 53-bit significand from below. -/
theorem roundMag_le_of_le {n v j : Nat} (hv : v < 2 ^ 53) (h : n ≤ v * 2 ^ j) :
    roundMag n ≤ v * 2 ^ j := by
  have hdm : 2 ^ excessBits n n * (n / 2 ^ excessBits n n) + n % 2 ^ excessBits n n = n :=
    Nat.div_add_mod n _
  rcases roundMag_cases n with hr | ⟨hr, hrem⟩
  · rw [hr]
    exact Nat.le_trans (Nat.div_mul_le_self n _) h
  · rw [hr]
    have hkpos : 0 < excessBits n n := by
      rcases Nat.eq_zero_or_pos (excessBits n n) with h0 | h0
      · rw [h0] at hrem
        exact absurd (Nat.mod_one n) hrem
      · exact h0
    obtain ⟨_, hlo, _⟩ := excessBits_large (large_of_excessBits_pos hkpos)
    have hVlt : v * 2 ^ j < 2 ^ (53 + j) := by
      rw [Nat.pow_add]
      exact Nat.mul_lt_mul_of_pos_right hv (Nat.two_pow_pos _)
    have hkj : excessBits n n ≤ j := by
      have := two_pow_exp_lt (Nat.lt_of_le_of_lt (Nat.le_trans hlo h) hVlt)
      omega
    have hV : v * 2 ^ j = v * 2 ^ (j - excessBits n n) * 2 ^ excessBits n n := by
      rw [Nat.mul_assoc, ← two_pow_split hkj]
    rw [hV]
    apply Nat.mul_le_mul_right
    have hlt : n / 2 ^ excessBits n n * 2 ^ excessBits n n <
        v * 2 ^ (j - excessBits n n) * 2 ^ excessBits n n := by
      rw [← hV]
      have : 0 < n % 2 ^ excessBits n n := Nat.pos_of_ne_zero hrem
      rw [Nat.mul_comm] 
      omega
    exact Nat.lt_of_mul_lt_mul_right hlt

/-- Rounding never crosses a value with a 53-bit significand from above. -/
theorem le_roundMag_of_le {n v j : Nat} (hv : v < 2 ^ 53) (h : v * 2 ^ j ≤ n) :
    v * 2 ^ j ≤ roundMag n := by
  have hdm : 2 ^ excessBits n n * (n / 2 ^ excessBits n n) + n % 2 ^ excessBits n n = n :=
    Nat.div_add_mod n _
  have hrlt : n % 2 ^ excessBits n n < 2 ^ excessBits n n :=
    Nat.mod_lt _ (Nat.two_pow_pos _)
  rcases roundMag_cases n with hr | ⟨hr, _⟩
  · rw [hr]
    rcases Nat.eq_zero_or_pos (excessBits n n) with h0 | hkpos
    · rw [h0]
      simpa using h
    · obtain ⟨_, hlo, _⟩ := excessBits_large (large_of_excessBits_pos hkpos)
      rcases Nat.lt_or_ge j (excessBits n n) with hjk | hkj
      rotate_left
      · have hV : v * 2 ^ j = v * 2 ^ (j - excessBits n n) * 2 ^ excessBits n n := by
          rw [Nat.mul_assoc, ← two_pow_split hkj]
        rw [hV]
        apply Nat.mul_le_mul_right
        rw [Nat.le_div_iff_mul_le (Nat.two_pow_pos _), ← hV]
        exact h
      · have hq : 2 ^ 52 ≤ n / 2 ^ excessBits n n := by
          rw [Nat.le_div_iff_mul_le (Nat.two_pow_pos _), ← Nat.pow_add]
          exact hlo
        have h1 : v * 2 ^ j ≤ 2 ^ 53 * 2 ^ j :=
          Nat.mul_le_mul_right _ (Nat.le_of_lt hv)
        have h2 : 2 ^ 53 * 2 ^ j ≤ 2 ^ 52 * 2 ^ excessBits n n := by
          rw [← Nat.pow_add, ← Nat.pow_add]
          apply Nat.pow_le_pow_right (by decide)
          omega
        exact Nat.le_trans h1 (Nat.le_trans h2 (Nat.mul_le_mul_right _ hq))
  · rw [hr]
    apply Nat.le_trans h
    rw [Nat.add_mul, Nat.one_mul, Nat.mul_comm]
    omega

end Double
end drake

namespace drake
namespace Double

/-- The rounded magnitude has a 53-bit significand, normalised when the
exponent is not the smallest one. -/
theorem roundMag_norm (n : Nat) :
    ∃ q k, roundMag n = q * 2 ^ k ∧ q < 2 ^ 53 ∧ (k = 0 ∨ 2 ^ 52 ≤ q) := by
  rcases Nat.lt_or_ge n (2 ^ 53) with hsmall | hlarge
  · have hk := excessBits_small hsmall
    refine ⟨n, 0, ?_, hsmall, Or.inl rfl⟩
    rcases roundMag_cases n with hr | ⟨_, hrem⟩
    · rw [hr, hk]
      simp
    · rw [hk] at hrem
      exact absurd (Nat.mod_one n) hrem
  · obtain ⟨_, hlo, hhi⟩ := excessBits_large hlarge
    have hq1 : 2 ^ 52 ≤ n / 2 ^ excessBits n n := by
      rw [Nat.le_div_iff_mul_le (Nat.two_pow_pos _), ← Nat.pow_add]
      exact hlo
    have hq2 : n / 2 ^ excessBits n n < 2 ^ 53 := by
      rw [Nat.div_lt_iff_lt_mul (Nat.two_pow_pos _), ← Nat.pow_add]
      exact hhi
    rcases roundMag_cases n with hr | ⟨hr, _⟩
    · exact ⟨_, _, hr, hq2, Or.inr hq1⟩
    · rcases Nat.lt_or_ge (n / 2 ^ excessBits n n + 1) (2 ^ 53) with hc | hc
      · exact ⟨_, _, hr, hc, Or.inr (by omega)⟩
      · have he : n / 2 ^ excessBits n n + 1 = 2 ^ 53 := by omega
        refine ⟨2 ^ 52, excessBits n n + 1, ?_, by decide, Or.inr (Nat.le_refl _)⟩
        rw [hr, he]
        ring

theorem isnan_ofMag (s : Bool) (m : Nat) : (ofMag s m).isnan = false := by
  unfold ofMag
  by_cases h1 : m < 2 ^ 52
  · rw [dif_pos h1]
    simp [isnan]
  · rw [dif_neg h1]
    simp only []
    by_cases h2 : excessBits m m + 1 < 2047
    · rw [dif_pos h2]
      have : ¬ (excessBits m m = 2046) := by omega
      simp [isnan, this]
    · rw [dif_neg h2]
      simp [isnan, inf]

theorem sign_ofMag (s : Bool) (m : Nat) : (ofMag s m).sign = s := by
  unfold ofMag
  by_cases h1 : m < 2 ^ 52
  · rw [dif_pos h1]
  · rw [dif_neg h1]
    simp only []
    by_cases h2 : excessBits m m + 1 < 2047
    · rw [dif_pos h2]
    · rw [dif_neg h2]
      rfl

/-- Encoding a normalised magnitude and reading it back gives the magnitude,
capped at `2^2098`, the stand-in for infinity. -/
theorem mag_ofMag_norm {s : Bool} {m q k : Nat} (hm : m = q * 2 ^ k) (hq : q < 2 ^ 53)
    (hk : k = 0 ∨ 2 ^ 52 ≤ q) : (ofMag s m).mag = min m (2 ^ 2098) := by
  unfold ofMag
  by_cases h1 : m < 2 ^ 52
  · rw [dif_pos h1]
    have : m ≤ 2 ^ 2098 := Nat.le_trans (Nat.le_of_lt h1)
      (two_pow_mono (by decide : 52 ≤ 2098))
    rw [Nat.min_eq_left this]
    simp only [mag]
    exact if_pos trivial
  · rw [dif_neg h1]
    simp only []
    -- the kept bits are a normalised significand and the dropped ones are zero
    have hkey : 2 ^ 52 ≤ m / 2 ^ excessBits m m ∧ m / 2 ^ excessBits m m < 2 ^ 53 ∧
        m / 2 ^ excessBits m m * 2 ^ excessBits m m = m := by
      rcases Nat.lt_or_ge m (2 ^ 53) with hsmall | hlarge
      · rw [excessBits_small hsmall]
        simp only [Nat.pow_zero, Nat.div_one, Nat.mul_one]
        exact ⟨by omega, hsmall, trivial⟩
      · obtain ⟨hKpos, hlo, hhi⟩ := excessBits_large hlarge
        have hkne : k ≠ 0 := by
          intro h0
          rw [h0, Nat.pow_zero, Nat.mul_one] at hm
          omega
        have hq52 : 2 ^ 52 ≤ q := by
          rcases hk with h0 | h0
          · exact absurd h0 hkne
          · exact h0
        have hmlo : 2 ^ (52 + k) ≤ m := by
          rw [hm, Nat.pow_add]
          exact Nat.mul_le_mul_right _ hq52
        have hmhi : m < 2 ^ (53 + k) := by
          rw [hm, Nat.pow_add]
          exact Nat.mul_lt_mul_of_pos_right hq (Nat.two_pow_pos _)
        have e1 := two_pow_exp_lt (Nat.lt_of_le_of_lt hlo hmhi)
        have e2 := two_pow_exp_lt (Nat.lt_of_le_of_lt hmlo hhi)
        have hKk : excessBits m m = k := by omega
        rw [hKk, hm, Nat.mul_div_cancel _ (Nat.two_pow_pos _)]
        exact ⟨hq52, hq, rfl⟩
    obtain ⟨hq1, hq2, hqm⟩ := hkey
    by_cases h2 : excessBits m m + 1 < 2047
    · rw [dif_pos h2]
      have hfrac : 2 ^ 52 + m / 2 ^ excessBits m m % 2 ^ 52 = m / 2 ^ excessBits m m := by
        omega
      have hmag : (2 ^ 52 + m / 2 ^ excessBits m m % 2 ^ 52) * 2 ^ (excessBits m m + 1 - 1) = m := by
        rw [hfrac, Nat.add_sub_cancel, hqm]
      have hlt : m ≤ 2 ^ 2098 := by
        rw [← hqm]
        have : 2 ^ 2098 = 2 ^ 53 * 2 ^ 2045 := by norm_num
        rw [this]
        exact Nat.mul_le_mul (Nat.le_of_lt hq2) (two_pow_mono (by omega))
      simp only [mag]
      rw [if_neg (by omega), hmag, Nat.min_eq_left hlt]
    · rw [dif_neg h2]
      have hge : 2 ^ 2098 ≤ m := by
        rw [← hqm]
        have : 2 ^ 2098 = 2 ^ 52 * 2 ^ 2046 := by norm_num
        rw [this]
        exact Nat.mul_le_mul hq1 (two_pow_mono (by omega))
      rw [Nat.min_eq_right hge]
      simp only [mag, inf]
      rw [if_neg (by decide)]
      norm_num

/-- The magnitude of a correctly rounded finite result, read back. -/
theorem mag_ofMag_roundMag (s : Bool) (n : Nat) :
    (ofMag s (roundMag n)).mag = min (roundMag n) (2 ^ 2098) := by
  obtain ⟨q, k, hm, hq, hk⟩ := roundMag_norm n
  exact mag_ofMag_norm hm hq hk

end Double
end drake

namespace drake
namespace Double

/-- Every magnitude has a 53-bit significand. -/
theorem mag_rep (d : Double) : ∃ v j, d.mag = v * 2 ^ j ∧ v < 2 ^ 53 := by
  have hf := d.frac_lt
  unfold mag
  split_ifs with h
  · exact ⟨d.frac, 0, by simp, by omega⟩
  · exact ⟨2 ^ 52 + d.frac, d.expo - 1, rfl, by omega⟩

/-- Finite magnitudes lie below `2^2098`, the stand-in for infinity. -/
theorem mag_lt_of_isfinite {d : Double} (h : d.isfinite = true) : d.mag < 2 ^ 2098 := by
  have hf := d.frac_lt
  have he : d.expo < 2047 := by simpa [isfinite] using h
  have e : 2 ^ 2098 = 2 ^ 53 * 2 ^ 2045 := by norm_num
  unfold mag
  split_ifs with h0
  · exact Nat.lt_of_lt_of_le hf (two_pow_mono (by decide : 52 ≤ 2098))
  · rw [e]
    have h1 : 2 ^ 52 + d.frac < 2 ^ 53 := by omega
    have h2 : 2 ^ (d.expo - 1) ≤ 2 ^ 2045 := two_pow_mono (by omega)
    exact Nat.mul_lt_mul_of_lt_of_le h1 h2 (by positivity)

theorem isnan_of_isfinite {d : Double} (h : d.isfinite = true) : d.isnan = false := by
  have he : d.expo < 2047 := by simpa [isfinite] using h
  have : ¬ d.expo = 2047 := by omega
  simp [isnan, this]

theorem isinf_of_isfinite {d : Double} (h : d.isfinite = true) : d.isinf = false := by
  have he : d.expo < 2047 := by simpa [isfinite] using h
  have : ¬ d.expo = 2047 := by omega
  simp [isinf, this]

/-- A value that is neither NaN nor infinite is finite. -/
theorem isfinite_of_not_isnan_isinf {d : Double} (h1 : d.isnan = false) (h2 : d.isinf = false) :
    d.isfinite = true := by
  have he := d.expo_lt
  by_cases h : d.expo = 2047
  · by_cases hf : d.frac = 0
    · simp [isinf, h, hf] at h2
    · simp [isnan, h, hf] at h1
  · simp only [isfinite, decide_eq_true_eq]
    omega

theorem isfinite_nan : nan.isfinite = false := by decide

/-- The sum is finite only when both operands are. -/
theorem isfinite_of_isfinite_add {a b : Double} (h : (a.add b).isfinite = true) :
    a.isfinite = true ∧ b.isfinite = true := by
  unfold add at h
  by_cases hn : (a.isnan || b.isnan) = true
  · rw [if_pos hn] at h
    exact absurd h (by decide)
  · rw [if_neg hn] at h
    have hna : a.isnan = false := by
      cases ha : a.isnan <;> simp [ha] at hn ⊢
    have hnb : b.isnan = false := by
      cases hb : b.isnan <;> simp [hb] at hn ⊢
    by_cases hia : a.isinf = true
    · rw [if_pos hia] at h
      exfalso
      have ha : a.isfinite = false := by
        cases hf : a.isfinite
        · rfl
        · rw [isinf_of_isfinite hf] at hia
          exact absurd hia (by decide)
      split_ifs at h
      · exact absurd h (by decide)
      · rw [ha] at h
        exact absurd h (by decide)
    · rw [if_neg hia] at h
      have hia2 : a.isinf = false := by
        cases hh : a.isinf
        · rfl
        · exact absurd hh hia
      by_cases hib : b.isinf = true
      · rw [if_pos hib] at h
        rw [isinf_of_isfinite h] at hib
        exact absurd hib (by decide)
      · have hib2 : b.isinf = false := by
          cases hh : b.isinf
          · rfl
          · exact absurd hh hib
        exact ⟨isfinite_of_not_isnan_isinf hna hia2, isfinite_of_not_isnan_isinf hnb hib2⟩

/-- The sum of two finite operands: the exact sum, rounded. -/
theorem add_of_isfinite {a b : Double} (ha : a.isfinite = true) (hb : b.isfinite = true) :
    a.add b =
      if a.toInt + b.toInt = 0 then zero (a.sign && b.sign)
      else ofMag (decide (a.toInt + b.toInt < 0)) (roundMag (a.toInt + b.toInt).natAbs) := by
  unfold add
  rw [isnan_of_isfinite ha, isnan_of_isfinite hb, isinf_of_isfinite ha, isinf_of_isfinite hb]
  simp

theorem toInt_zero (s : Bool) : (zero s).toInt = 0 := by
  cases s <;> rfl

theorem toInt_ofMag_roundMag (s : Bool) (n : Nat) :
    (ofMag s (roundMag n)).toInt =
      if s then -((min (roundMag n) (2 ^ 2098) : Nat) : Int)
      else ((min (roundMag n) (2 ^ 2098) : Nat) : Int) := by
  unfold toInt
  rw [sign_ofMag, mag_ofMag_roundMag]

/-- Adding a finite operand that is `<= 0` does not increase a finite value. -/
theorem add_le_left {a b : Double} (ha : a.isfinite = true) (hb : b.isfinite = true)
    (hb0 : b.toInt ≤ 0) : (a.add b).isnan = false ∧ (a.add b).toInt ≤ a.toInt := by
  rw [add_of_isfinite ha hb]
  obtain ⟨v, j, hrep, hv⟩ := mag_rep a
  have hfin := mag_lt_of_isfinite ha
  by_cases hs : a.toInt + b.toInt = 0
  · rw [if_pos hs, toInt_zero]
    exact ⟨by cases (a.sign && b.sign) <;> rfl, by omega⟩
  · rw [if_neg hs]
    refine ⟨isnan_ofMag _ _, ?_⟩
    rw [toInt_ofMag_roundMag]
    have hA : a.toInt = if a.sign then -(a.mag : Int) else (a.mag : Int) := rfl
    by_cases hneg : a.toInt + b.toInt < 0
    · simp only [hneg, decide_True, if_true]
      cases hsg : a.sign
      · rw [hsg] at hA
        simp only [Bool.false_eq_true, if_false] at hA
        omega
      · rw [hsg] at hA
        simp only [if_true] at hA
        have hle : a.mag ≤ (a.toInt + b.toInt).natAbs := by omega
        rw [hrep] at hle
        have := le_roundMag_of_le hv hle
        rw [← hrep] at this
        have hmin : a.mag ≤ min (roundMag (a.toInt + b.toInt).natAbs) (2 ^ 2098) :=
          Nat.le_min.2 ⟨this, Nat.le_of_lt hfin⟩
        omega
    · simp only [hneg, decide_False, Bool.false_eq_true, if_false]
      cases hsg : a.sign
      · rw [hsg] at hA
        simp only [Bool.false_eq_true, if_false] at hA
        have hle : (a.toInt + b.toInt).natAbs ≤ a.mag := by omega
        rw [hrep] at hle
        have := roundMag_le_of_le hv hle
        rw [← hrep] at this
        have hmin : min (roundMag (a.toInt + b.toInt).natAbs) (2 ^ 2098) ≤ a.mag :=
          Nat.le_trans (Nat.min_le_left _ _) this
        omega
      · rw [hsg] at hA
        simp only [if_true] at hA
        omega

/-- Adding a finite operand that is `>= 0` does not decrease a finite value. -/
theorem le_add_left {a b : Double} (ha : a.isfinite = true) (hb : b.isfinite = true)
    (hb0 : 0 ≤ b.toInt) : (a.add b).isnan = false ∧ a.toInt ≤ (a.add b).toInt := by
  rw [add_of_isfinite ha hb]
  obtain ⟨v, j, hrep, hv⟩ := mag_rep a
  have hfin := mag_lt_of_isfinite ha
  by_cases hs : a.toInt + b.toInt = 0
  · rw [if_pos hs, toInt_zero]
    exact ⟨by cases (a.sign && b.sign) <;> rfl, by omega⟩
  · rw [if_neg hs]
    refine ⟨isnan_ofMag _ _, ?_⟩
    rw [toInt_ofMag_roundMag]
    have hA : a.toInt = if a.sign then -(a.mag : Int) else (a.mag : Int) := rfl
    by_cases hneg : a.toInt + b.toInt < 0
    · simp only [hneg, decide_True, if_true]
      cases hsg : a.sign
      · rw [hsg] at hA
        simp only [Bool.false_eq_true, if_false] at hA
        omega
      · rw [hsg] at hA
        simp only [if_true] at hA
        have hle : (a.toInt + b.toInt).natAbs ≤ a.mag := by omega
        rw [hrep] at hle
        have := roundMag_le_of_le hv hle
        rw [← hrep] at this
        have hmin : min (roundMag (a.toInt + b.toInt).natAbs) (2 ^ 2098) ≤ a.mag :=
          Nat.le_trans (Nat.min_le_left _ _) this
        omega
    · simp only [hneg, decide_False, Bool.false_eq_true, if_false]
      cases hsg : a.sign
      · rw [hsg] at hA
        simp only [Bool.false_eq_true, if_false] at hA
        have hle : a.mag ≤ (a.toInt + b.toInt).natAbs := by omega
        rw [hrep] at hle
        have := le_roundMag_of_le hv hle
        rw [← hrep] at this
        have hmin : a.mag ≤ min (roundMag (a.toInt + b.toInt).natAbs) (2 ^ 2098) :=
          Nat.le_min.2 ⟨this, Nat.le_of_lt hfin⟩
        omega
      · rw [hsg] at hA
        simp only [if_true] at hA
        omega

end Double
end drake

namespace drake
open Double

/-! ## Facts about `CheckBounds` -/

theorem CheckBounds_ok_iff (u d : Double) :
    CheckBounds u d = .ok () ↔ (d.isfinite = true ∧ d.le u = false) := by
  unfold CheckBounds
  cases hf : d.isfinite <;> cases hl : d.le u <;> simp

theorem CheckBounds_not_finite {u d : Double} (h : d.isfinite = false) :
    CheckBounds u d = .error .influenceDistanceNotFinite := by
  unfold CheckBounds
  simp [h]

theorem CheckBounds_not_larger {u d : Double} (hf : d.isfinite = true) (hl : d.le u = true) :
    CheckBounds u d = .error (.influenceDistanceNotLarger d u (d.sub u)) := by
  unfold CheckBounds
  simp [hf, hl]

/-- Every exception of `CheckBounds` is an invalid-configuration error. -/
theorem CheckBounds_error_kind {u d : Double} {e : Error} (h : CheckBounds u d = .error e) :
    e.kind = .invalidConfiguration := by
  cases hf : d.isfinite
  · rw [CheckBounds_not_finite hf] at h
    cases h
    rfl
  · cases hl : d.le u
    · rw [(CheckBounds_ok_iff u d).2 ⟨hf, hl⟩] at h
      cases h
    · rw [CheckBounds_not_larger hf hl] at h
      cases h
      rfl

theorem le_eq_true_iff (a b : Double) :
    a.le b = true ↔ (a.isnan = false ∧ b.isnan = false ∧ a.toInt ≤ b.toInt) := by
  unfold Double.le
  cases a.isnan <;> cases b.isnan <;> simp

theorem lt_eq_true_iff (a b : Double) :
    a.lt b = true ↔ (a.isnan = false ∧ b.isnan = false ∧ a.toInt < b.toInt) := by
  unfold Double.lt
  cases a.isnan <;> cases b.isnan <;> simp

theorem eq_eq_true_iff (a b : Double) :
    a.eq b = true ↔ (a.isnan = false ∧ b.isnan = false ∧ a.toInt = b.toInt) := by
  unfold Double.eq
  cases a.isnan <;> cases b.isnan <;> simp

/-- With an offset that is `<= 0` or not finite, the bound check of the
constructors throws. -/
theorem CheckBounds_add_error {u o : Double}
    (h : o.le (zero false) = true ∨ o.isfinite = false) :
    ∃ e, CheckBounds u (u.add o) = .error e ∧ e.kind = .invalidConfiguration := by
  cases hf : (u.add o).isfinite
  · exact ⟨_, CheckBounds_not_finite hf, rfl⟩
  · obtain ⟨hu, ho⟩ := isfinite_of_isfinite_add hf
    rcases h with h | h
    · obtain ⟨_, _, hle⟩ := (le_eq_true_iff _ _).1 h
      rw [toInt_zero] at hle
      obtain ⟨hn, hle2⟩ := add_le_left hu ho hle
      have hl : (u.add o).le u = true :=
        (le_eq_true_iff _ _).2 ⟨hn, isnan_of_isfinite hu, hle2⟩
      exact ⟨_, CheckBounds_not_larger hf hl, rfl⟩
    · rw [ho] at h
      exact absurd h (by decide)

/-- When the bound check of the constructors passes, bound and offset are
finite, the offset is positive, and the influence distance is finite and
above the bound. -/
theorem CheckBounds_add_ok {u o : Double} (h : CheckBounds u (u.add o) = .ok ()) :
    u.isfinite = true ∧ o.isfinite = true ∧ (zero false).lt o = true ∧
    (u.add o).isfinite = true ∧ u.lt (u.add o) = true := by
  obtain ⟨hf, hl⟩ := (CheckBounds_ok_iff _ _).1 h
  obtain ⟨hu, ho⟩ := isfinite_of_isfinite_add hf
  have hnu := isnan_of_isfinite hu
  have hno := isnan_of_isfinite ho
  have hns := isnan_of_isfinite hf
  have hlt : u.toInt < (u.add o).toInt := by
    by_contra hc
    have : (u.add o).le u = true := (le_eq_true_iff _ _).2 ⟨hns, hnu, by omega⟩
    rw [hl] at this
    exact absurd this (by decide)
  refine ⟨hu, ho, ?_, hf, (lt_eq_true_iff _ _).2 ⟨hnu, hns, hlt⟩⟩
  refine (lt_eq_true_iff _ _).2 ⟨by decide, hno, ?_⟩
  rw [toInt_zero]
  by_contra hc
  have := (add_le_left hu ho (by omega)).2
  omega

/-- With a positive offset and a finite sum, the bound check fails only by
absorption: the sum rounds to the bound itself. -/
theorem CheckBounds_add_ok_iff_ne {u o : Double} (ho : (zero false).lt o = true)
    (hf : (u.add o).isfinite = true) :
    CheckBounds u (u.add o) = .ok () ↔ (u.add o).eq u = false := by
  obtain ⟨hu, hofin⟩ := isfinite_of_isfinite_add hf
  obtain ⟨_, _, hpos⟩ := (lt_eq_true_iff _ _).1 ho
  rw [toInt_zero] at hpos
  obtain ⟨hn, hge⟩ := le_add_left hu hofin (by omega)
  have hnu := isnan_of_isfinite hu
  rw [CheckBounds_ok_iff]
  constructor
  · rintro ⟨_, hl⟩
    cases he : (u.add o).eq u
    · rfl
    · obtain ⟨_, _, heq⟩ := (eq_eq_true_iff _ _).1 he
      have : (u.add o).le u = true := (le_eq_true_iff _ _).2 ⟨hn, hnu, by omega⟩
      rw [hl] at this
      exact absurd this (by decide)
  · intro he
    refine ⟨hf, ?_⟩
    cases hl : (u.add o).le u
    · rfl
    · obtain ⟨_, _, hle⟩ := (le_eq_true_iff _ _).1 hl
      have : (u.add o).eq u = true := (eq_eq_true_iff _ _).2 ⟨hn, hnu, by omega⟩
      rw [he] at this
      exact absurd this (by decide)

end drake

namespace drake
open Double

/-! ## Runs of `Initialize` and of the constructors -/

section runs

variable {P W : Type} (api : MinimumValueApi P W)

/-- The tail of `Initialize` never throws; it builds the primitive, copies its
bounds and sets the penalty function when there is one. -/
theorem buildPrimitive_run (self : MinimumDistanceUpperBoundConstraint P) (n : Nat)
    (u o : Double) (m : Nat) (f g : DistanceFn) (pen : Option PenaltyFn) :
    buildPrimitive api self n u o m f g pen =
      ⟨Call.makeMinimumValueConstraint :: Call.setBounds ::
          pen.elim [] (fun _ => [Call.setPenaltyFunction]),
        .ok { self with
          minimum_value_constraint_ :=
            some (pen.elim (api.make n u o m f g)
              (fun p => api.set_penalty_function (api.make n u o m f g) p))
          lower_bound := api.lower_bound (api.make n u o m f g)
          upper_bound := api.upper_bound (api.make n u o m f g) }⟩ := by
  cases pen <;> rfl

theorem InitializePlant_unconnected {T : Scalar} (self : MinimumDistanceUpperBoundConstraint P)
    (plant : MultibodyPlant T) (ctx : Context T) (u o : Double) (pen : Option PenaltyFn)
    (h : ctx.geometry_connected = false) :
    InitializePlant api self plant ctx u o pen =
      ⟨[Call.checkPlantIsConnectedToSceneGraph], .error .plantNotConnected⟩ := by
  simp [InitializePlant, Run.andThen, Run.call, CheckPlantIsConnectedToSceneGraph, h]

theorem InitializePlant_bad_bounds {T : Scalar} (self : MinimumDistanceUpperBoundConstraint P)
    (plant : MultibodyPlant T) (ctx : Context T) (u o : Double) (pen : Option PenaltyFn)
    (h : ctx.geometry_connected = true) {e : Error} (he : CheckBounds u (u.add o) = .error e) :
    InitializePlant api self plant ctx u o pen =
      ⟨[Call.checkPlantIsConnectedToSceneGraph, Call.checkBounds u (u.add o)], .error e⟩ := by
  simp [InitializePlant, Run.andThen, Run.call, CheckPlantIsConnectedToSceneGraph, h, he]

theorem InitializePlant_ok {T : Scalar} (self : MinimumDistanceUpperBoundConstraint P)
    (plant : MultibodyPlant T) (ctx : Context T) (u o : Double) (pen : Option PenaltyFn)
    (h : ctx.geometry_connected = true) (hok : CheckBounds u (u.add o) = .ok ()) :
    InitializePlant api self plant ctx u o pen =
      ⟨Call.checkPlantIsConnectedToSceneGraph :: Call.checkBounds u (u.add o) ::
          Call.getCollisionCandidates ::
          (buildPrimitive api self self.num_vars u o ctx.num_collision_candidates
            (.ofPlant T .autodiff plant ctx) (.ofPlant T .double plant ctx) pen).calls,
        (buildPrimitive api self self.num_vars u o ctx.num_collision_candidates
            (.ofPlant T .autodiff plant ctx) (.ofPlant T .double plant ctx) pen).result⟩ := by
  simp [InitializePlant, Run.andThen, Run.call, CheckPlantIsConnectedToSceneGraph, h, hok]

theorem InitializeCollisionChecker_bad_bounds (self : MinimumDistanceUpperBoundConstraint P)
    (cc : CollisionChecker) (ctx : CollisionCheckerContext) (u o : Double)
    (pen : Option PenaltyFn) {e : Error} (he : CheckBounds u (u.add o) = .error e) :
    InitializeCollisionChecker api self cc ctx u o pen =
      ⟨[Call.checkBounds u (u.add o)], .error e⟩ := by
  simp [InitializeCollisionChecker, Run.andThen, Run.call, he]

theorem InitializeCollisionChecker_ok (self : MinimumDistanceUpperBoundConstraint P)
    (cc : CollisionChecker) (ctx : CollisionCheckerContext) (u o : Double)
    (pen : Option PenaltyFn) (hok : CheckBounds u (u.add o) = .ok ()) :
    InitializeCollisionChecker api self cc ctx u o pen =
      ⟨Call.checkBounds u (u.add o) :: Call.maxContextNumDistances ::
          (buildPrimitive api self cc.plant.num_positions u o (cc.MaxContextNumDistances ctx)
            (.ofCollisionChecker .autodiff self.collision_checker_
              self.collision_checker_context_)
            (.ofCollisionChecker .double self.collision_checker_
              self.collision_checker_context_) pen).calls,
        (buildPrimitive api self cc.plant.num_positions u o (cc.MaxContextNumDistances ctx)
            (.ofCollisionChecker .autodiff self.collision_checker_
              self.collision_checker_context_)
            (.ofCollisionChecker .double self.collision_checker_
              self.collision_checker_context_) pen).result⟩ := by
  simp [InitializeCollisionChecker, Run.andThen, Run.call, hok]

/-- The object each plant constructor hands to `Initialize`, for `double`. -/
theorem ctorPlantDouble_some (p : MultibodyPlant Scalar.double) (u : Double)
    (ctx : Context Scalar.double) (pen : Option PenaltyFn) (o : Double) :
    ctorPlantDouble api (some p) u ctx pen o =
      ⟨Call.refFromPtrOrThrow :: Call.baseConstraint ::
          (InitializePlant api
            { baseConstraint P p.num_positions with
              plant_double_ := some p
              plant_context_double_ := some ctx } p ctx u o pen).calls,
        (InitializePlant api
            { baseConstraint P p.num_positions with
              plant_double_ := some p
              plant_context_double_ := some ctx } p ctx u o pen).result⟩ := by
  simp [ctorPlantDouble, Run.andThen, Run.call, RefFromPtrOrThrow, baseConstraint]

theorem ctorPlantAutodiff_some (p : MultibodyPlant Scalar.autodiff) (u : Double)
    (ctx : Context Scalar.autodiff) (pen : Option PenaltyFn) (o : Double) :
    ctorPlantAutodiff api (some p) u ctx pen o =
      ⟨Call.refFromPtrOrThrow :: Call.baseConstraint ::
          (InitializePlant api
            { baseConstraint P p.num_positions with
              plant_autodiff_ := some p
              plant_context_autodiff_ := some ctx } p ctx u o pen).calls,
        (InitializePlant api
            { baseConstraint P p.num_positions with
              plant_autodiff_ := some p
              plant_context_autodiff_ := some ctx } p ctx u o pen).result⟩ := by
  simp [ctorPlantAutodiff, Run.andThen, Run.call, RefFromPtrOrThrow, baseConstraint]

theorem ctorCollisionChecker_some (cc : CollisionChecker) (u : Double)
    (ctx : CollisionCheckerContext) (pen : Option PenaltyFn) (o : Double) :
    ctorCollisionChecker api (some cc) u ctx pen o =
      ⟨Call.ptrOrThrow :: Call.baseConstraint ::
          (InitializeCollisionChecker api
            { baseConstraint P cc.plant.num_positions with
              collision_checker_ := some cc
              collision_checker_context_ := some ctx } cc ctx u o pen).calls,
        (InitializeCollisionChecker api
            { baseConstraint P cc.plant.num_positions with
              collision_checker_ := some cc
              collision_checker_context_ := some ctx } cc ctx u o pen).result⟩ := by
  simp [ctorCollisionChecker, Run.andThen, Run.call, RefFromPtrOrThrow, baseConstraint]

theorem ctorPlantDouble_null (u : Double) (ctx : Context Scalar.double)
    (pen : Option PenaltyFn) (o : Double) :
    ctorPlantDouble api none u ctx pen o = ⟨[Call.refFromPtrOrThrow], .error .nullArgument⟩ :=
  rfl

theorem ctorPlantAutodiff_null (u : Double) (ctx : Context Scalar.autodiff)
    (pen : Option PenaltyFn) (o : Double) :
    ctorPlantAutodiff api none u ctx pen o = ⟨[Call.refFromPtrOrThrow], .error .nullArgument⟩ :=
  rfl

theorem ctorCollisionChecker_null (u : Double) (ctx : CollisionCheckerContext)
    (pen : Option PenaltyFn) (o : Double) :
    ctorCollisionChecker api none u ctx pen o = ⟨[Call.ptrOrThrow], .error .nullArgument⟩ :=
  rfl

end runs

end drake

namespace drake
open Double

section inversion

variable {P W : Type} (api : MinimumValueApi P W)

theorem InitializePlant_ok_inv {T : Scalar} {self c : MinimumDistanceUpperBoundConstraint P}
    {plant : MultibodyPlant T} {ctx : Context T} {u o : Double} {pen : Option PenaltyFn}
    (h : (InitializePlant api self plant ctx u o pen).result = .ok c) :
    ctx.geometry_connected = true ∧ CheckBounds u (u.add o) = .ok () ∧
    c = { self with
      minimum_value_constraint_ :=
        some (pen.elim
          (api.make self.num_vars u o ctx.num_collision_candidates
            (.ofPlant T .autodiff plant ctx) (.ofPlant T .double plant ctx))
          (fun p => api.set_penalty_function
            (api.make self.num_vars u o ctx.num_collision_candidates
              (.ofPlant T .autodiff plant ctx) (.ofPlant T .double plant ctx)) p))
      lower_bound := api.lower_bound (api.make self.num_vars u o ctx.num_collision_candidates
        (.ofPlant T .autodiff plant ctx) (.ofPlant T .double plant ctx))
      upper_bound := api.upper_bound (api.make self.num_vars u o ctx.num_collision_candidates
        (.ofPlant T .autodiff plant ctx) (.ofPlant T .double plant ctx)) } := by
  cases hconn : ctx.geometry_connected
  · rw [InitializePlant_unconnected api self plant ctx u o pen hconn] at h
    cases h
  · cases hcb : CheckBounds u (u.add o) with
    | error e =>
      rw [InitializePlant_bad_bounds api self plant ctx u o pen hconn hcb] at h
      cases h
    | ok v =>
      rw [InitializePlant_ok api self plant ctx u o pen hconn hcb, buildPrimitive_run] at h
      simp only [Except.ok.injEq] at h
      exact ⟨rfl, rfl, h.symm⟩

theorem InitializeCollisionChecker_ok_inv {self c : MinimumDistanceUpperBoundConstraint P}
    {cc : CollisionChecker} {ctx : CollisionCheckerContext} {u o : Double}
    {pen : Option PenaltyFn}
    (h : (InitializeCollisionChecker api self cc ctx u o pen).result = .ok c) :
    CheckBounds u (u.add o) = .ok () ∧
    c = { self with
      minimum_value_constraint_ :=
        some (pen.elim
          (api.make cc.plant.num_positions u o (cc.MaxContextNumDistances ctx)
            (.ofCollisionChecker .autodiff self.collision_checker_
              self.collision_checker_context_)
            (.ofCollisionChecker .double self.collision_checker_
              self.collision_checker_context_))
          (fun p => api.set_penalty_function
            (api.make cc.plant.num_positions u o (cc.MaxContextNumDistances ctx)
              (.ofCollisionChecker .autodiff self.collision_checker_
                self.collision_checker_context_)
              (.ofCollisionChecker .double self.collision_checker_
                self.collision_checker_context_)) p))
      lower_bound := api.lower_bound
        (api.make cc.plant.num_positions u o (cc.MaxContextNumDistances ctx)
          (.ofCollisionChecker .autodiff self.collision_checker_
            self.collision_checker_context_)
          (.ofCollisionChecker .double self.collision_checker_
            self.collision_checker_context_))
      upper_bound := api.upper_bound
        (api.make cc.plant.num_positions u o (cc.MaxContextNumDistances ctx)
          (.ofCollisionChecker .autodiff self.collision_checker_
            self.collision_checker_context_)
          (.ofCollisionChecker .double self.collision_checker_
            self.collision_checker_context_)) } := by
  cases hcb : CheckBounds u (u.add o) with
  | error e =>
    rw [InitializeCollisionChecker_bad_bounds api self cc ctx u o pen hcb] at h
    cases h
  | ok v =>
    rw [InitializeCollisionChecker_ok api self cc ctx u o pen hcb, buildPrimitive_run] at h
    simp only [Except.ok.injEq] at h
    exact ⟨rfl, h.symm⟩

/-- A successful `double` plant constructor: the pointer was not null, the
plant connected, the bound check passed. -/
theorem ctorPlantDouble_ok_inv {plant : Ptr (MultibodyPlant Scalar.double)} {u o : Double}
    {ctx : Context Scalar.double} {pen : Option PenaltyFn}
    {c : MinimumDistanceUpperBoundConstraint P}
    (h : (ctorPlantDouble api plant u ctx pen o).result = .ok c) :
    ∃ p, plant = some p ∧
      (InitializePlant api
        { baseConstraint P p.num_positions with
          plant_double_ := some p
          plant_context_double_ := some ctx } p ctx u o pen).result = .ok c := by
  cases plant with
  | none =>
    rw [ctorPlantDouble_null] at h
    cases h
  | some p =>
    rw [ctorPlantDouble_some] at h
    exact ⟨p, rfl, h⟩

theorem ctorPlantAutodiff_ok_inv {plant : Ptr (MultibodyPlant Scalar.autodiff)} {u o : Double}
    {ctx : Context Scalar.autodiff} {pen : Option PenaltyFn}
    {c : MinimumDistanceUpperBoundConstraint P}
    (h : (ctorPlantAutodiff api plant u ctx pen o).result = .ok c) :
    ∃ p, plant = some p ∧
      (InitializePlant api
        { baseConstraint P p.num_positions with
          plant_autodiff_ := some p
          plant_context_autodiff_ := some ctx } p ctx u o pen).result = .ok c := by
  cases plant with
  | none =>
    rw [ctorPlantAutodiff_null] at h
    cases h
  | some p =>
    rw [ctorPlantAutodiff_some] at h
    exact ⟨p, rfl, h⟩

theorem ctorCollisionChecker_ok_inv {checker : Ptr CollisionChecker} {u o : Double}
    {ctx : CollisionCheckerContext} {pen : Option PenaltyFn}
    {c : MinimumDistanceUpperBoundConstraint P}
    (h : (ctorCollisionChecker api checker u ctx pen o).result = .ok c) :
    ∃ cc, checker = some cc ∧
      (InitializeCollisionChecker api
        { baseConstraint P cc.plant.num_positions with
          collision_checker_ := some cc
          collision_checker_context_ := some ctx } cc ctx u o pen).result = .ok c := by
  cases checker with
  | none =>
    rw [ctorCollisionChecker_null] at h
    cases h
  | some cc =>
    rw [ctorCollisionChecker_some] at h
    exact ⟨cc, rfl, h⟩

end inversion

end drake

namespace drake
open Double

section construct

variable {P W : Type} (api : MinimumValueApi P W)

/-- A constructor that succeeds has passed the bound check. -/
theorem construct_ok_checkBounds {args : CtorArgs} {u o : Double} {pen : Option PenaltyFn}
    {c : MinimumDistanceUpperBoundConstraint P}
    (h : (construct api args u pen o).result = .ok c) : CheckBounds u (u.add o) = .ok () := by
  cases args with
  | plantDouble plant ctx =>
    obtain ⟨p, _, hp⟩ := ctorPlantDouble_ok_inv api h
    exact (InitializePlant_ok_inv api hp).2.1
  | plantAutodiff plant ctx =>
    obtain ⟨p, _, hp⟩ := ctorPlantAutodiff_ok_inv api h
    exact (InitializePlant_ok_inv api hp).2.1
  | collisionChecker checker ctx =>
    obtain ⟨cc, _, hp⟩ := ctorCollisionChecker_ok_inv api h
    exact (InitializeCollisionChecker_ok_inv api hp).1

theorem thrown_eq_none_iff {α : Type} (r : Run α) : r.thrown = none ↔ ∃ a, r.result = .ok a := by
  unfold Run.thrown
  cases r.result with
  | error e => simp
  | ok a => simp

theorem thrown_eq_some_iff {α : Type} (r : Run α) (e : Error) :
    r.thrown = some e ↔ r.result = .error e := by
  unfold Run.thrown
  cases r.result with
  | error e2 => simp
  | ok a => simp

/-- With a connected plant and a passing bound check, the `double` plant
constructor succeeds. -/
theorem ctorPlantDouble_succeeds (p : MultibodyPlant Scalar.double) (u : Double)
    (ctx : Context Scalar.double) (pen : Option PenaltyFn) (o : Double)
    (hc : ctx.geometry_connected = true) (hok : CheckBounds u (u.add o) = .ok ()) :
    (ctorPlantDouble api (some p) u ctx pen o).thrown = none := by
  rw [thrown_eq_none_iff, ctorPlantDouble_some, InitializePlant_ok api _ p ctx u o pen hc hok,
    buildPrimitive_run]
  exact ⟨_, rfl⟩

theorem ctorPlantAutodiff_succeeds (p : MultibodyPlant Scalar.autodiff) (u : Double)
    (ctx : Context Scalar.autodiff) (pen : Option PenaltyFn) (o : Double)
    (hc : ctx.geometry_connected = true) (hok : CheckBounds u (u.add o) = .ok ()) :
    (ctorPlantAutodiff api (some p) u ctx pen o).thrown = none := by
  rw [thrown_eq_none_iff, ctorPlantAutodiff_some, InitializePlant_ok api _ p ctx u o pen hc hok,
    buildPrimitive_run]
  exact ⟨_, rfl⟩

theorem ctorCollisionChecker_succeeds (cc : CollisionChecker) (u : Double)
    (ctx : CollisionCheckerContext) (pen : Option PenaltyFn) (o : Double)
    (hok : CheckBounds u (u.add o) = .ok ()) :
    (ctorCollisionChecker api (some cc) u ctx pen o).thrown = none := by
  rw [thrown_eq_none_iff, ctorCollisionChecker_some,
    InitializeCollisionChecker_ok api _ cc ctx u o pen hok, buildPrimitive_run]
  exact ⟨_, rfl⟩

end construct

end drake

namespace drake
open Double

section counting

variable {P W : Type} (api : MinimumValueApi P W)

theorem InitializePlant_countP {T : Scalar} (self : MinimumDistanceUpperBoundConstraint P)
    (plant : MultibodyPlant T) (ctx : Context T) (u o : Double) (pen : Option PenaltyFn) :
    (InitializePlant api self plant ctx u o pen).calls.countP Call.isCheckBounds ≤ 1 := by
  cases hc : ctx.geometry_connected
  · rw [InitializePlant_unconnected api self plant ctx u o pen hc]
    simp [List.countP_cons, Call.isCheckBounds]
  · cases hcb : CheckBounds u (u.add o) with
    | error e =>
      rw [InitializePlant_bad_bounds api self plant ctx u o pen hc hcb]
      simp [List.countP_cons, Call.isCheckBounds]
    | ok v =>
      rw [InitializePlant_ok api self plant ctx u o pen hc hcb, buildPrimitive_run]
      cases pen <;> simp [List.countP_cons, Call.isCheckBounds]

theorem InitializeCollisionChecker_countP (self : MinimumDistanceUpperBoundConstraint P)
    (cc : CollisionChecker) (ctx : CollisionCheckerContext) (u o : Double)
    (pen : Option PenaltyFn) :
    (InitializeCollisionChecker api self cc ctx u o pen).calls.countP Call.isCheckBounds ≤ 1 := by
  cases hcb : CheckBounds u (u.add o) with
  | error e =>
    rw [InitializeCollisionChecker_bad_bounds api self cc ctx u o pen hcb]
    simp [List.countP_cons, Call.isCheckBounds]
  | ok v =>
    rw [InitializeCollisionChecker_ok api self cc ctx u o pen hcb, buildPrimitive_run]
    cases pen <;> simp [List.countP_cons, Call.isCheckBounds]

/-- No constructor calls `CheckBounds` twice. -/
theorem construct_countP (args : CtorArgs) (u o : Double) (pen : Option PenaltyFn) :
    (construct api args u pen o).calls.countP Call.isCheckBounds ≤ 1 := by
  cases args with
  | plantDouble plant ctx =>
    cases plant with
    | none => exact Nat.zero_le _
    | some p =>
      show (ctorPlantDouble api (some p) u ctx pen o).calls.countP Call.isCheckBounds ≤ 1
      rw [ctorPlantDouble_some]
      simpa [List.countP_cons, Call.isCheckBounds] using InitializePlant_countP api _ p ctx u o pen
  | plantAutodiff plant ctx =>
    cases plant with
    | none => exact Nat.zero_le _
    | some p =>
      show (ctorPlantAutodiff api (some p) u ctx pen o).calls.countP Call.isCheckBounds ≤ 1
      rw [ctorPlantAutodiff_some]
      simpa [List.countP_cons, Call.isCheckBounds] using InitializePlant_countP api _ p ctx u o pen
  | collisionChecker checker ctx =>
    cases checker with
    | none => exact Nat.zero_le _
    | some cc =>
      show (ctorCollisionChecker api (some cc) u ctx pen o).calls.countP Call.isCheckBounds ≤ 1
      rw [ctorCollisionChecker_some]
      simpa [List.countP_cons, Call.isCheckBounds] using
        InitializeCollisionChecker_countP api _ cc ctx u o pen

end counting

end drake

namespace drake
open Double

section slots

variable {P W : Type} (api : MinimumValueApi P W)

/-- What a successful constructor leaves in the object: the slots as the
initializer list set them, the primitive built by `Initialize`, and the bounds
copied from it. -/
theorem construct_ok_inv {args : CtorArgs} {u o : Double} {pen : Option PenaltyFn}
    {c : MinimumDistanceUpperBoundConstraint P}
    (h : (construct api args u pen o).result = .ok c) :
    ∃ (n m : Nat) (f g : DistanceFn),
      c.lower_bound = api.lower_bound (api.make n u o m f g) ∧
      c.upper_bound = api.upper_bound (api.make n u o m f g) ∧
      c.minimum_value_constraint_ =
        some (pen.elim (api.make n u o m f g)
          (fun p => api.set_penalty_function (api.make n u o m f g) p)) ∧
      match args with
      | .plantDouble plant ctx =>
        plant.isSome = true ∧ c.plant_double_ = plant ∧ c.plant_autodiff_ = none ∧
        c.collision_checker_ = none ∧ m = ctx.num_collision_candidates ∧
        plant.map (fun p => p.num_positions) = some n
      | .plantAutodiff plant ctx =>
        plant.isSome = true ∧ c.plant_double_ = none ∧ c.plant_autodiff_ = plant ∧
        c.collision_checker_ = none ∧ m = ctx.num_collision_candidates ∧
        plant.map (fun p => p.num_positions) = some n
      | .collisionChecker checker ctx =>
        checker.isSome = true ∧ c.plant_double_ = none ∧ c.plant_autodiff_ = none ∧
        c.collision_checker_ = checker ∧
        checker.map (fun k => k.MaxContextNumDistances ctx) = some m ∧
        checker.map (fun k => k.plant.num_positions) = some n := by
  cases args with
  | plantDouble plant ctx =>
    obtain ⟨p, hp, hi⟩ := ctorPlantDouble_ok_inv api h
    obtain ⟨_, _, hc⟩ := InitializePlant_ok_inv api hi
    subst hp
    subst hc
    exact ⟨_, _, _, _, rfl, rfl, rfl, rfl, rfl, rfl, rfl, rfl, rfl⟩
  | plantAutodiff plant ctx =>
    obtain ⟨p, hp, hi⟩ := ctorPlantAutodiff_ok_inv api h
    obtain ⟨_, _, hc⟩ := InitializePlant_ok_inv api hi
    subst hp
    subst hc
    exact ⟨_, _, _, _, rfl, rfl, rfl, rfl, rfl, rfl, rfl, rfl, rfl⟩
  | collisionChecker checker ctx =>
    obtain ⟨cc, hp, hi⟩ := ctorCollisionChecker_ok_inv api h
    obtain ⟨_, hc⟩ := InitializeCollisionChecker_ok_inv api hi
    subst hp
    subst hc
    exact ⟨_, _, _, _, rfl, rfl, rfl, rfl, rfl, rfl, rfl, rfl, rfl⟩

end slots

end drake

namespace drake
open Double

/-! ## The claims -/

/-- C1: `CheckBounds(minimum_distance_upper, influence_distance)` throws, and
then an invalid-configuration error, exactly when `influence_distance` is not
finite (NaN or an infinity) or `influence_distance <= minimum_distance_upper`,
and returns normally for every other pair.  The finiteness test comes first:
a non-finite influence distance gives the "must be finite" error, and the
"must be larger than" error occurs exactly for a finite influence distance
that is `<=` the bound. -/
theorem CheckBounds_contract (minimum_distance_upper influence_distance : Double) :
    ((∃ e, CheckBounds minimum_distance_upper influence_distance = .error e ∧
        e.kind = ErrorKind.invalidConfiguration) ↔
      (influence_distance.isfinite = false ∨
        influence_distance.le minimum_distance_upper = true)) ∧
    (CheckBounds minimum_distance_upper influence_distance = .ok () ↔
      ¬ (influence_distance.isfinite = false ∨
        influence_distance.le minimum_distance_upper = true)) ∧
    (influence_distance.isfinite = false ↔
      (influence_distance.isnan = true ∨ influence_distance.isinf = true)) ∧
    (CheckBounds minimum_distance_upper influence_distance =
        .error Error.influenceDistanceNotFinite ↔
      influence_distance.isfinite = false) ∧
    ((∃ a b c, CheckBounds minimum_distance_upper influence_distance =
        .error (Error.influenceDistanceNotLarger a b c)) ↔
      (influence_distance.isfinite = true ∧
        influence_distance.le minimum_distance_upper = true)) := by
  have hfin : influence_distance.isfinite = false ↔
      (influence_distance.isnan = true ∨ influence_distance.isinf = true) := by
    constructor
    · intro h
      cases hn : influence_distance.isnan
      · cases hi : influence_distance.isinf
        · rw [isfinite_of_not_isnan_isinf hn hi] at h
          exact absurd h (by decide)
        · exact Or.inr rfl
      · exact Or.inl rfl
    · intro h
      cases hf : influence_distance.isfinite
      · rfl
      · rw [isnan_of_isfinite hf, isinf_of_isfinite hf] at h
        rcases h with h | h <;> exact absurd h (by decide)
  cases hf : influence_distance.isfinite
  · have hcb := @CheckBounds_not_finite minimum_distance_upper influence_distance hf
    refine ⟨⟨fun _ => Or.inl rfl, fun _ => ⟨_, hcb, rfl⟩⟩, ?_, ?_, ?_, ?_⟩
    · rw [hcb]
      simp
    · rw [hf] at hfin
      exact hfin
    · rw [hcb]
      simp
    · rw [hcb]
      simp
  · cases hl : influence_distance.le minimum_distance_upper
    · have hcb := (CheckBounds_ok_iff minimum_distance_upper influence_distance).2 ⟨hf, hl⟩
      refine ⟨?_, ?_, ?_, ?_, ?_⟩
      · rw [hcb]
        simp
      · rw [hcb]
        simp
      · rw [hf] at hfin
        exact hfin
      · rw [hcb]
        simp
      · rw [hcb]
        simp
    · have hcb := @CheckBounds_not_larger minimum_distance_upper influence_distance hf hl
      refine ⟨⟨fun _ => Or.inr rfl, fun _ => ⟨_, hcb, rfl⟩⟩, ?_, ?_, ?_, ?_⟩
      · rw [hcb]
        simp
      · rw [hf] at hfin
        exact hfin
      · rw [hcb]
        simp
      · rw [hcb]
        exact ⟨fun _ => ⟨rfl, rfl⟩, fun _ => ⟨_, _, _, rfl⟩⟩

/-- C4: with a null plant pointer (either plant constructor) or a null
collision-checker pointer, and whatever the bound and the offset, the
constructor throws the null-argument error, and the pointer check is the only
call it makes: `CheckBounds` is not reached, so an invalid bound never shows. -/
theorem null_pointer_fails_first {P W : Type} (api : MinimumValueApi P W)
    (minimum_distance_upper influence_distance_offset : Double)
    (plant_context_double : Context Scalar.double)
    (plant_context_autodiff : Context Scalar.autodiff)
    (collision_checker_context : CollisionCheckerContext)
    (penalty_function : Option PenaltyFn) :
    ctorPlantDouble api none minimum_distance_upper plant_context_double penalty_function
        influence_distance_offset =
      ⟨[Call.refFromPtrOrThrow], .error Error.nullArgument⟩ ∧
    ctorPlantAutodiff api none minimum_distance_upper plant_context_autodiff penalty_function
        influence_distance_offset =
      ⟨[Call.refFromPtrOrThrow], .error Error.nullArgument⟩ ∧
    ctorCollisionChecker api none minimum_distance_upper collision_checker_context
        penalty_function influence_distance_offset =
      ⟨[Call.ptrOrThrow], .error Error.nullArgument⟩ ∧
    Error.nullArgument.kind = ErrorKind.nullArgument ∧
    Error.nullArgument.kind ≠ ErrorKind.invalidConfiguration :=
  ⟨rfl, rfl, rfl, rfl, by decide⟩

/-- C10: `CheckBounds` on its own does not make the upper bound finite: with
`minimum_distance_upper` equal to `-infinity` or to NaN and
`influence_distance = 0` it returns normally.  The bound is finite after
construction only because the constructors pass
`minimum_distance_upper + influence_distance_offset` as the influence distance:
when that call returns normally, the bound is finite. -/
theorem CheckBounds_alone_admits_non_finite_upper {P W : Type} (api : MinimumValueApi P W) :
    CheckBounds (inf true) (zero false) = .ok () ∧ (inf true).isfinite = false ∧
    CheckBounds nan (zero false) = .ok () ∧ nan.isfinite = false ∧
    (∀ u o : Double, CheckBounds u (u.add o) = .ok () → u.isfinite = true) ∧
    (∀ (args : CtorArgs) (u o : Double) (pen : Option PenaltyFn)
        (c : MinimumDistanceUpperBoundConstraint P),
      (construct api args u pen o).result = .ok c → u.isfinite = true) := by
  refine ⟨rfl, by decide, rfl, by decide, fun u o h => (CheckBounds_add_ok h).1, ?_⟩
  intro args u o pen c h
  cases args with
  | plantDouble plant ctx =>
    obtain ⟨p, _, hp⟩ := ctorPlantDouble_ok_inv api h
    exact (CheckBounds_add_ok (InitializePlant_ok_inv api hp).2.1).1
  | plantAutodiff plant ctx =>
    obtain ⟨p, _, hp⟩ := ctorPlantAutodiff_ok_inv api h
    exact (CheckBounds_add_ok (InitializePlant_ok_inv api hp).2.1).1
  | collisionChecker checker ctx =>
    obtain ⟨cc, _, hp⟩ := ctorCollisionChecker_ok_inv api h
    exact (CheckBounds_add_ok (InitializeCollisionChecker_ok_inv api hp).1).1

end drake

namespace drake
open Double

/-- C2, counterexample: the offset is `-infinity` (not finite) and the plant
pointer is not null, but the plant is not connected to geometry; the
`AutoDiffXd` plant constructor fails with the precondition error of the
connection check, not with an invalid-configuration error. -/
theorem bad_offset_unconnected_plant_counterexample :
    (inf true).isfinite = false ∧
    (ctorPlantAutodiff sampleApi (some (samplePlant Scalar.autodiff)) c0_1
        (unconnectedContext Scalar.autodiff) none (inf true)).result =
      .error Error.plantNotConnected ∧
    ¬ ∃ e, (ctorPlantAutodiff sampleApi (some (samplePlant Scalar.autodiff)) c0_1
        (unconnectedContext Scalar.autodiff) none (inf true)).result = .error e ∧
      e.kind = ErrorKind.invalidConfiguration := by
  refine ⟨by decide, rfl, ?_⟩
  rintro ⟨e, he, hk⟩
  have h2 : (ctorPlantAutodiff sampleApi (some (samplePlant Scalar.autodiff)) c0_1
        (unconnectedContext Scalar.autodiff) none (inf true)).result =
      .error Error.plantNotConnected := rfl
  rw [h2] at he
  cases he
  exact absurd hk (by decide)

/-- C2 (amended): for every upper bound and every offset that is `<= 0` or not
finite, each of the three constructors fails.  The error is
invalid-configuration whenever the backend pointer is not null and, for the
two plant constructors, the plant is connected to geometry; a null pointer
gives the null-argument error and an unconnected plant the precondition
error. -/
theorem bad_offset_construction_fails {P W : Type} (api : MinimumValueApi P W)
    (u o : Double) (h : o.le (zero false) = true ∨ o.isfinite = false)
    (args : CtorArgs) (pen : Option PenaltyFn) :
    ∃ e, (construct api args u pen o).result = .error e ∧
      match args with
      | .plantDouble plant ctx =>
        (plant = none → e = Error.nullArgument) ∧
        (plant ≠ none → ctx.geometry_connected = false → e = Error.plantNotConnected) ∧
        (plant ≠ none → ctx.geometry_connected = true →
          e.kind = ErrorKind.invalidConfiguration)
      | .plantAutodiff plant ctx =>
        (plant = none → e = Error.nullArgument) ∧
        (plant ≠ none → ctx.geometry_connected = false → e = Error.plantNotConnected) ∧
        (plant ≠ none → ctx.geometry_connected = true →
          e.kind = ErrorKind.invalidConfiguration)
      | .collisionChecker checker _ =>
        (checker = none → e = Error.nullArgument) ∧
        (checker ≠ none → e.kind = ErrorKind.invalidConfiguration) := by
  obtain ⟨e, he, hk⟩ := @CheckBounds_add_error u o h
  cases args with
  | plantDouble plant ctx =>
    cases plant with
    | none => exact ⟨_, rfl, fun _ => rfl, fun hne => absurd rfl hne, fun hne => absurd rfl hne⟩
    | some p =>
      cases hc : ctx.geometry_connected
      · refine ⟨Error.plantNotConnected, ?_, fun hn => (by cases hn), fun _ _ => rfl,
          fun _ hh => (by rw [hc] at hh; cases hh)⟩
        show (ctorPlantDouble api (some p) u ctx pen o).result = _
        rw [ctorPlantDouble_some, InitializePlant_unconnected api _ p ctx u o pen hc]
      · refine ⟨e, ?_, fun hn => (by cases hn), fun _ hh => (by rw [hc] at hh; cases hh), fun _ _ => hk⟩
        show (ctorPlantDouble api (some p) u ctx pen o).result = _
        rw [ctorPlantDouble_some, InitializePlant_bad_bounds api _ p ctx u o pen hc he]
  | plantAutodiff plant ctx =>
    cases plant with
    | none => exact ⟨_, rfl, fun _ => rfl, fun hne => absurd rfl hne, fun hne => absurd rfl hne⟩
    | some p =>
      cases hc : ctx.geometry_connected
      · refine ⟨Error.plantNotConnected, ?_, fun hn => (by cases hn), fun _ _ => rfl,
          fun _ hh => (by rw [hc] at hh; cases hh)⟩
        show (ctorPlantAutodiff api (some p) u ctx pen o).result = _
        rw [ctorPlantAutodiff_some, InitializePlant_unconnected api _ p ctx u o pen hc]
      · refine ⟨e, ?_, fun hn => (by cases hn), fun _ hh => (by rw [hc] at hh; cases hh), fun _ _ => hk⟩
        show (ctorPlantAutodiff api (some p) u ctx pen o).result = _
        rw [ctorPlantAutodiff_some, InitializePlant_bad_bounds api _ p ctx u o pen hc he]
  | collisionChecker checker ctx =>
    cases checker with
    | none => exact ⟨_, rfl, fun _ => rfl, fun hne => absurd rfl hne⟩
    | some cc =>
      refine ⟨e, ?_, fun hn => (by cases hn), fun _ => hk⟩
      show (ctorCollisionChecker api (some cc) u ctx pen o).result = _
      rw [ctorCollisionChecker_some, InitializeCollisionChecker_bad_bounds api _ cc ctx u o pen he]

/-- C2, witness: bound `0.1` and offset `0`, with a collision checker that is
not null: the constructor fails with an invalid-configuration error. -/
theorem bad_offset_construction_fails_witness :
    (zero false).le (zero false) = true ∧
    ∃ e, (ctorCollisionChecker sampleApi (some sampleChecker) c0_1 ⟨0⟩ none
        (zero false)).result = .error e ∧ e.kind = ErrorKind.invalidConfiguration :=
  ⟨by decide,
    (bad_offset_construction_fails sampleApi c0_1 (zero false) (Or.inl (by decide))
      (CtorArgs.collisionChecker (some sampleChecker) ⟨0⟩) none).elim
      fun e he => ⟨e, he.1, he.2.2 (by simp)⟩⟩

/-- C3, counterexample: bound `1.0` and offset `2^-1074 > 0`.  The sum rounds
to `1.0`, which is finite, and `CheckBounds(1.0, 1.0)` throws the "must be
larger than" error; so does the `double` plant constructor with a pointer
that is not null and a connected plant. -/
theorem tiny_offset_absorbed_counterexample :
    (zero false).lt minSubnormal = true ∧
    (one.add minSubnormal).isfinite = true ∧
    one.add minSubnormal = one ∧
    CheckBounds one (one.add minSubnormal) =
      .error (Error.influenceDistanceNotLarger one one (zero false)) ∧
    (ctorPlantDouble sampleApi (some (samplePlant Scalar.double)) one
        (connectedContext Scalar.double) none minSubnormal).thrown =
      some (Error.influenceDistanceNotLarger one one (zero false)) := by
  refine ⟨by decide, by decide, by decide, ?_, by decide⟩
  rfl

/-- C3 (amended): for every upper bound and offset with `offset > 0` and
`upper_bound + offset` (in double arithmetic) finite, the bound check
`CheckBounds(upper_bound, upper_bound + offset)` passes exactly when the
rounded sum differs from `upper_bound`; construction with a backend pointer
that is not null (and, for a plant, connected to geometry) then succeeds.  When
the offset is absorbed by rounding, the check throws the "must be larger than"
error. -/
theorem positive_offset_construction {P W : Type} (api : MinimumValueApi P W)
    (u o : Double) (ho : (zero false).lt o = true) (hf : (u.add o).isfinite = true) :
    (CheckBounds u (u.add o) = .ok () ↔ (u.add o).eq u = false) ∧
    ((u.add o).eq u = false →
      (∀ p ctx pen, ctx.geometry_connected = true →
        (ctorPlantDouble api (some p) u ctx pen o).thrown = none) ∧
      (∀ p ctx pen, ctx.geometry_connected = true →
        (ctorPlantAutodiff api (some p) u ctx pen o).thrown = none) ∧
      (∀ cc ctx pen, (ctorCollisionChecker api (some cc) u ctx pen o).thrown = none)) ∧
    ((u.add o).eq u = true →
      CheckBounds u (u.add o) =
        .error (Error.influenceDistanceNotLarger (u.add o) u ((u.add o).sub u))) := by
  have hiff := @CheckBounds_add_ok_iff_ne u o ho hf
  refine ⟨hiff, fun hne => ?_, fun heq => ?_⟩
  · have hok := hiff.2 hne
    exact ⟨fun p ctx pen hc => ctorPlantDouble_succeeds api p u ctx pen o hc hok,
      fun p ctx pen hc => ctorPlantAutodiff_succeeds api p u ctx pen o hc hok,
      fun cc ctx pen => ctorCollisionChecker_succeeds api cc u ctx pen o hok⟩
  · obtain ⟨hn, hnu, he⟩ := (eq_eq_true_iff _ _).1 heq
    exact CheckBounds_not_larger hf ((le_eq_true_iff _ _).2 ⟨hn, hnu, by omega⟩)

/-- C3, witness: bound `0.1`, offset `0.05`.  The influence distance is the
double sum `0.1 + 0.05 = 0.15000000000000002`, the bound check passes and the
`double` plant constructor succeeds. -/
theorem positive_offset_construction_witness :
    (zero false).lt c0_05 = true ∧
    c0_1.add c0_05 = c0_15_up ∧
    CheckBounds c0_1 (c0_1.add c0_05) = .ok () ∧
    (ctorPlantDouble sampleApi (some (samplePlant Scalar.double)) c0_1
        (connectedContext Scalar.double) none c0_05).thrown = none :=
  ⟨by decide, by decide,
    (positive_offset_construction sampleApi c0_1 c0_05 (by decide) (by decide)).1.2
      (by decide),
    ((positive_offset_construction sampleApi c0_1 c0_05 (by decide) (by decide)).2.1
      (by decide)).1 _ _ _ rfl⟩

end drake

namespace drake
open Double

/-- C5, counterexample: bound `0.1` and offset `0` are invalid (the bound check
on them throws), the plant pointer is not null, and the plant is not connected
to geometry.  The `double` plant constructor stops at the connection check
with the precondition error; `CheckBounds` is never called. -/
theorem connection_check_precedes_bound_check_counterexample :
    (∃ e, CheckBounds c0_1 (c0_1.add (zero false)) = .error e) ∧
    ctorPlantDouble sampleApi (some (samplePlant Scalar.double)) c0_1
        (unconnectedContext Scalar.double) none (zero false) =
      ⟨[Call.refFromPtrOrThrow, Call.baseConstraint, Call.checkPlantIsConnectedToSceneGraph],
        .error Error.plantNotConnected⟩ ∧
    Error.plantNotConnected.kind ≠ ErrorKind.invalidConfiguration :=
  ⟨⟨_, rfl⟩, rfl, by decide⟩

/-- C5 (amended): in each of the three construction paths `CheckBounds` is
called at most once, and exactly once as soon as the pointer check and, for a
plant, the geometry-connection check have passed; it is called before the
pair-budget query (collision candidates, `MaxContextNumDistances`) and before
the aggregation primitive is built.  In the two plant paths the
geometry-connection check comes before `CheckBounds`: a plant that is not
connected fails with the precondition error whatever the bounds.  With a
collision checker that is not null, or a connected plant, an invalid bound
fails with the error of `CheckBounds` and nothing is queried or built. -/
theorem checkBounds_position_in_construction {P W : Type} (api : MinimumValueApi P W)
    (u o : Double) (pen : Option PenaltyFn)
    (pD : MultibodyPlant Scalar.double) (ctxD : Context Scalar.double)
    (pA : MultibodyPlant Scalar.autodiff) (ctxA : Context Scalar.autodiff)
    (cc : CollisionChecker) (ccCtx : CollisionCheckerContext) :
    (ctxD.geometry_connected = false →
      ctorPlantDouble api (some pD) u ctxD pen o =
        ⟨[Call.refFromPtrOrThrow, Call.baseConstraint,
            Call.checkPlantIsConnectedToSceneGraph],
          .error Error.plantNotConnected⟩) ∧
    (ctxD.geometry_connected = true → ∀ e, CheckBounds u (u.add o) = .error e →
      ctorPlantDouble api (some pD) u ctxD pen o =
        ⟨[Call.refFromPtrOrThrow, Call.baseConstraint,
            Call.checkPlantIsConnectedToSceneGraph, Call.checkBounds u (u.add o)],
          .error e⟩ ∧ e.kind = ErrorKind.invalidConfiguration) ∧
    (ctxD.geometry_connected = true → CheckBounds u (u.add o) = .ok () →
      (ctorPlantDouble api (some pD) u ctxD pen o).calls =
        [Call.refFromPtrOrThrow, Call.baseConstraint,
          Call.checkPlantIsConnectedToSceneGraph, Call.checkBounds u (u.add o),
          Call.getCollisionCandidates, Call.makeMinimumValueConstraint, Call.setBounds] ++
          pen.elim [] (fun _ => [Call.setPenaltyFunction])) ∧
    (ctxA.geometry_connected = false →
      ctorPlantAutodiff api (some pA) u ctxA pen o =
        ⟨[Call.refFromPtrOrThrow, Call.baseConstraint,
            Call.checkPlantIsConnectedToSceneGraph],
          .error Error.plantNotConnected⟩) ∧
    (ctxA.geometry_connected = true → ∀ e, CheckBounds u (u.add o) = .error e →
      ctorPlantAutodiff api (some pA) u ctxA pen o =
        ⟨[Call.refFromPtrOrThrow, Call.baseConstraint,
            Call.checkPlantIsConnectedToSceneGraph, Call.checkBounds u (u.add o)],
          .error e⟩ ∧ e.kind = ErrorKind.invalidConfiguration) ∧
    (ctxA.geometry_connected = true → CheckBounds u (u.add o) = .ok () →
      (ctorPlantAutodiff api (some pA) u ctxA pen o).calls =
        [Call.refFromPtrOrThrow, Call.baseConstraint,
          Call.checkPlantIsConnectedToSceneGraph, Call.checkBounds u (u.add o),
          Call.getCollisionCandidates, Call.makeMinimumValueConstraint, Call.setBounds] ++
          pen.elim [] (fun _ => [Call.setPenaltyFunction])) ∧
    (∀ e, CheckBounds u (u.add o) = .error e →
      ctorCollisionChecker api (some cc) u ccCtx pen o =
        ⟨[Call.ptrOrThrow, Call.baseConstraint, Call.checkBounds u (u.add o)], .error e⟩ ∧
      e.kind = ErrorKind.invalidConfiguration) ∧
    (CheckBounds u (u.add o) = .ok () →
      (ctorCollisionChecker api (some cc) u ccCtx pen o).calls =
        [Call.ptrOrThrow, Call.baseConstraint, Call.checkBounds u (u.add o),
          Call.maxContextNumDistances, Call.makeMinimumValueConstraint, Call.setBounds] ++
          pen.elim [] (fun _ => [Call.setPenaltyFunction])) ∧
    (∀ args : CtorArgs, (construct api args u pen o).calls.countP Call.isCheckBounds ≤ 1) := by
  have hD1 : ctxD.geometry_connected = false →
      ctorPlantDouble api (some pD) u ctxD pen o =
        ⟨[Call.refFromPtrOrThrow, Call.baseConstraint,
            Call.checkPlantIsConnectedToSceneGraph],
          .error Error.plantNotConnected⟩ := fun hc => by
    rw [ctorPlantDouble_some, InitializePlant_unconnected api _ pD ctxD u o pen hc]
  have hD2 : ctxD.geometry_connected = true → ∀ e, CheckBounds u (u.add o) = .error e →
      ctorPlantDouble api (some pD) u ctxD pen o =
        ⟨[Call.refFromPtrOrThrow, Call.baseConstraint,
            Call.checkPlantIsConnectedToSceneGraph, Call.checkBounds u (u.add o)],
          .error e⟩ ∧ e.kind = ErrorKind.invalidConfiguration := fun hc e he => by
    rw [ctorPlantDouble_some, InitializePlant_bad_bounds api _ pD ctxD u o pen hc he]
    exact ⟨rfl, CheckBounds_error_kind he⟩
  have hD3 : ctxD.geometry_connected = true → CheckBounds u (u.add o) = .ok () →
      (ctorPlantDouble api (some pD) u ctxD pen o).calls =
        [Call.refFromPtrOrThrow, Call.baseConstraint,
          Call.checkPlantIsConnectedToSceneGraph, Call.checkBounds u (u.add o),
          Call.getCollisionCandidates, Call.makeMinimumValueConstraint, Call.setBounds] ++
          pen.elim [] (fun _ => [Call.setPenaltyFunction]) := fun hc hok => by
    rw [ctorPlantDouble_some, InitializePlant_ok api _ pD ctxD u o pen hc hok,
      buildPrimitive_run]
    rfl
  have hA1 : ctxA.geometry_connected = false →
      ctorPlantAutodiff api (some pA) u ctxA pen o =
        ⟨[Call.refFromPtrOrThrow, Call.baseConstraint,
            Call.checkPlantIsConnectedToSceneGraph],
          .error Error.plantNotConnected⟩ := fun hc => by
    rw [ctorPlantAutodiff_some, InitializePlant_unconnected api _ pA ctxA u o pen hc]
  have hA2 : ctxA.geometry_connected = true → ∀ e, CheckBounds u (u.add o) = .error e →
      ctorPlantAutodiff api (some pA) u ctxA pen o =
        ⟨[Call.refFromPtrOrThrow, Call.baseConstraint,
            Call.checkPlantIsConnectedToSceneGraph, Call.checkBounds u (u.add o)],
          .error e⟩ ∧ e.kind = ErrorKind.invalidConfiguration := fun hc e he => by
    rw [ctorPlantAutodiff_some, InitializePlant_bad_bounds api _ pA ctxA u o pen hc he]
    exact ⟨rfl, CheckBounds_error_kind he⟩
  have hA3 : ctxA.geometry_connected = true → CheckBounds u (u.add o) = .ok () →
      (ctorPlantAutodiff api (some pA) u ctxA pen o).calls =
        [Call.refFromPtrOrThrow, Call.baseConstraint,
          Call.checkPlantIsConnectedToSceneGraph, Call.checkBounds u (u.add o),
          Call.getCollisionCandidates, Call.makeMinimumValueConstraint, Call.setBounds] ++
          pen.elim [] (fun _ => [Call.setPenaltyFunction]) := fun hc hok => by
    rw [ctorPlantAutodiff_some, InitializePlant_ok api _ pA ctxA u o pen hc hok,
      buildPrimitive_run]
    rfl
  have hC2 : ∀ e, CheckBounds u (u.add o) = .error e →
      ctorCollisionChecker api (some cc) u ccCtx pen o =
        ⟨[Call.ptrOrThrow, Call.baseConstraint, Call.checkBounds u (u.add o)], .error e⟩ ∧
      e.kind = ErrorKind.invalidConfiguration := fun e he => by
    rw [ctorCollisionChecker_some,
      InitializeCollisionChecker_bad_bounds api _ cc ccCtx u o pen he]
    exact ⟨rfl, CheckBounds_error_kind he⟩
  have hC3 : CheckBounds u (u.add o) = .ok () →
      (ctorCollisionChecker api (some cc) u ccCtx pen o).calls =
        [Call.ptrOrThrow, Call.baseConstraint, Call.checkBounds u (u.add o),
          Call.maxContextNumDistances, Call.makeMinimumValueConstraint, Call.setBounds] ++
          pen.elim [] (fun _ => [Call.setPenaltyFunction]) := fun hok => by
    rw [ctorCollisionChecker_some, InitializeCollisionChecker_ok api _ cc ccCtx u o pen hok,
      buildPrimitive_run]
    rfl
  refine ⟨hD1, hD2, hD3, hA1, hA2, hA3, hC2, hC3, ?_⟩
  exact fun args => construct_countP api args u o pen

/-- C5, witness: bound `0.1` and offset `0` with a collision checker that is
not null: the run is the pointer check, the base constructor and `CheckBounds`,
which throws the "must be larger than" error; nothing is queried or built. -/
theorem checkBounds_position_in_construction_witness :
    ctorCollisionChecker sampleApi (some sampleChecker) c0_1 ⟨0⟩ none (zero false) =
      ⟨[Call.ptrOrThrow, Call.baseConstraint, Call.checkBounds c0_1 (c0_1.add (zero false))],
        .error (Error.influenceDistanceNotLarger c0_1 c0_1 (zero false))⟩ :=
  ((checkBounds_position_in_construction sampleApi c0_1 (zero false) none
    (samplePlant Scalar.double) (connectedContext Scalar.double)
    (samplePlant Scalar.autodiff) (connectedContext Scalar.autodiff)
    sampleChecker ⟨0⟩).2.2.2.2.2.2.1 _ rfl).1

end drake

namespace drake
open Double

/-- C6: when `CheckBounds(u, u + o)` returns normally, and so whenever one of
the three constructors succeeds on bound `u` and offset `o`, the bound is
finite, the offset is finite and `> 0`, and the influence distance `u + o` is
finite and strictly greater than the bound. -/
theorem constructed_satisfies_spec_invariant {P W : Type} (api : MinimumValueApi P W)
    (u o : Double)
    (h : CheckBounds u (u.add o) = .ok () ∨
      ∃ (args : CtorArgs) (pen : Option PenaltyFn) (c : MinimumDistanceUpperBoundConstraint P),
        (construct api args u pen o).result = .ok c) :
    u.isfinite = true ∧ o.isfinite = true ∧ (zero false).lt o = true ∧
    (u.add o).isfinite = true ∧ u.lt (u.add o) = true := by
  rcases h with h | ⟨args, pen, c, h⟩
  · exact CheckBounds_add_ok h
  · exact CheckBounds_add_ok (construct_ok_checkBounds api h)

/-- C6, witness: the `double` plant constructor succeeds on bound `0.1` and
offset `0.05`, which satisfy the invariant. -/
theorem constructed_satisfies_spec_invariant_witness :
    (∃ c, (construct sampleApi
        (CtorArgs.plantDouble (some (samplePlant Scalar.double))
          (connectedContext Scalar.double)) c0_1 none c0_05).result = .ok c) ∧
    c0_1.isfinite = true ∧ c0_05.isfinite = true ∧ (zero false).lt c0_05 = true ∧
    (c0_1.add c0_05).isfinite = true ∧ c0_1.lt (c0_1.add c0_05) = true :=
  ⟨⟨_, rfl⟩,
    constructed_satisfies_spec_invariant sampleApi c0_1 c0_05
      (Or.inr ⟨CtorArgs.plantDouble (some (samplePlant Scalar.double))
        (connectedContext Scalar.double), none, _, rfl⟩)⟩

/-- C7: after a successful construction exactly one of the three backend slots
`plant_double_`, `plant_autodiff_`, `collision_checker_` is not null: the one of
the constructor used, and it holds the pointer passed in; the other two are
null.  `Eval` (either overload) returns the object unchanged. -/
theorem backend_slots_after_construction {P W : Type} (api : MinimumValueApi P W)
    (args : CtorArgs) (u o : Double) (pen : Option PenaltyFn)
    (c : MinimumDistanceUpperBoundConstraint P)
    (h : (construct api args u pen o).result = .ok c) :
    (match args with
      | .plantDouble plant _ =>
        plant.isSome = true ∧ c.plant_double_ = plant ∧ c.plant_autodiff_ = none ∧
        c.collision_checker_ = none
      | .plantAutodiff plant _ =>
        plant.isSome = true ∧ c.plant_double_ = none ∧ c.plant_autodiff_ = plant ∧
        c.collision_checker_ = none
      | .collisionChecker checker _ =>
        checker.isSome = true ∧ c.plant_double_ = none ∧ c.plant_autodiff_ = none ∧
        c.collision_checker_ = checker) ∧
    (∀ (w : W) (x : VectorX Scalar.double), (DoEvalDouble api c w x).1 = c) ∧
    (∀ (w : W) (x : VectorX Scalar.autodiff), (DoEvalAutoDiff api c w x).1 = c) := by
  obtain ⟨n, m, f, g, _, _, _, hs⟩ := construct_ok_inv api h
  refine ⟨?_, fun _ _ => rfl, fun _ _ => rfl⟩
  cases args with
  | plantDouble plant ctx => exact ⟨hs.1, hs.2.1, hs.2.2.1, hs.2.2.2.1⟩
  | plantAutodiff plant ctx => exact ⟨hs.1, hs.2.1, hs.2.2.1, hs.2.2.2.1⟩
  | collisionChecker checker ctx => exact ⟨hs.1, hs.2.1, hs.2.2.1, hs.2.2.2.1⟩

/-- C7, witness: the collision-checker constructor on bound `0.1` and offset
`0.05` succeeds; only `collision_checker_` is set, to the pointer passed in. -/
theorem backend_slots_after_construction_witness :
    ∃ c, (construct sampleApi (CtorArgs.collisionChecker (some sampleChecker) ⟨0⟩)
        c0_1 none c0_05).result = .ok c ∧
      c.plant_double_ = none ∧ c.plant_autodiff_ = none ∧
      c.collision_checker_ = some sampleChecker :=
  ⟨_, rfl,
    (backend_slots_after_construction sampleApi
      (CtorArgs.collisionChecker (some sampleChecker) ⟨0⟩) c0_1 c0_05 none _ rfl).1.2⟩

end drake

namespace drake
open Double

/-- C9: a constructed constraint owns a primitive, and for every input `x`
both `DoEval` overloads return exactly the result of that primitive's `Eval`
on `x`, with the object unchanged; there is no branch on the backend.  Hence
two successive calls on the same `x` give the same output whenever the
primitive's `Eval` does. -/
theorem eval_forwards_to_primitive {P W : Type} (api : MinimumValueApi P W)
    (args : CtorArgs) (u o : Double) (pen : Option PenaltyFn)
    (c : MinimumDistanceUpperBoundConstraint P)
    (h : (construct api args u pen o).result = .ok c) :
    ∃ mvc, c.minimum_value_constraint_ = some mvc ∧
      (∀ (w : W) (x : VectorX Scalar.double),
        DoEvalDouble api c w x = (c, some (api.Eval Scalar.double mvc w x))) ∧
      (∀ (w : W) (x : VectorX Scalar.autodiff),
        DoEvalAutoDiff api c w x = (c, some (api.Eval Scalar.autodiff mvc w x))) ∧
      (∀ (w : W) (x : VectorX Scalar.double),
        (api.Eval Scalar.double mvc (api.Eval Scalar.double mvc w x).2 x).1 =
          (api.Eval Scalar.double mvc w x).1 →
        (DoEvalDouble api (DoEvalDouble api c w x).1
            (api.Eval Scalar.double mvc w x).2 x).2.map Prod.fst =
          (DoEvalDouble api c w x).2.map Prod.fst) ∧
      (∀ (w : W) (x : VectorX Scalar.autodiff),
        (api.Eval Scalar.autodiff mvc (api.Eval Scalar.autodiff mvc w x).2 x).1 =
          (api.Eval Scalar.autodiff mvc w x).1 →
        (DoEvalAutoDiff api (DoEvalAutoDiff api c w x).1
            (api.Eval Scalar.autodiff mvc w x).2 x).2.map Prod.fst =
          (DoEvalAutoDiff api c w x).2.map Prod.fst) := by
  obtain ⟨n, m, f, g, _, _, hm, _⟩ := construct_ok_inv api h
  refine ⟨_, hm, ?_, ?_, ?_, ?_⟩
  · intro w x
    simp [DoEvalDouble, DoEvalGeneric, hm]
  · intro w x
    simp [DoEvalAutoDiff, DoEvalGeneric, hm]
  · intro w x hx
    simp [DoEvalDouble, DoEvalGeneric, hm, hx]
  · intro w x hx
    simp [DoEvalAutoDiff, DoEvalGeneric, hm, hx]

/-- C9, witness: the constraint built by the `AutoDiffXd` plant constructor on
bound `0.1` and offset `0.05` forwards `Eval` on `[1.0]` to the stand-in
primitive, which returns its input. -/
theorem eval_forwards_to_primitive_witness :
    ∃ c, (construct sampleApi
        (CtorArgs.plantAutodiff (some (samplePlant Scalar.autodiff))
          (connectedContext Scalar.autodiff)) c0_1 none c0_05).result = .ok c ∧
      DoEvalDouble sampleApi c () [one] = (c, some ([one], ())) :=
  ⟨_, rfl,
    (eval_forwards_to_primitive sampleApi
      (CtorArgs.plantAutodiff (some (samplePlant Scalar.autodiff))
        (connectedContext Scalar.autodiff)) c0_1 c0_05 none _ rfl).elim
      fun _ hm => (hm.2.1 () [one]).trans rfl⟩

end drake
